import Mathlib

/-!
Shallow embedding of `src/game.js` (the "carnivorous teapot" arcade game) and
verification of the specification's claims about it.

Modelling conventions:
* JS numbers that hold pixel positions and speeds are modelled as `ℚ`
  (the game only ever uses small dyadic rationals such as 2.5 and 1.5, for
  which JS double arithmetic is exact).
* Counters (score, knives, spawn countdowns) are modelled as `ℤ` so that
  non-negativity is a real property, not a typing artifact.
* Sprites are JS objects mutated in place; we model the sprite collections as
  lists and mutation as functional update at an index.  Object identity, where
  the source relies on it (`gamestate.player`, `gamestate.lamb`), is modelled
  with a per-sprite numeric `id` allocated from a counter in the world state.
* `Math.random()` is modelled by an oracle stream `rng : Nat → ℚ` in the world
  state, consumed one value at a time.
* External I/O (canvas drawing, audio buffers, localStorage) is modelled only
  through its observable footprint: sound handles are sample names, the
  persisted high score is an `Option ℤ` field.
-/

namespace Teapot

/-- Playfield width in logical pixels (`PLAYFIELD_WIDTH` in the source). -/
def PLAYFIELD_WIDTH : ℚ := 500

/-- Playfield height in logical pixels (`PLAYFIELD_HEIGHT` in the source). -/
def PLAYFIELD_HEIGHT : ℚ := 500

/-- The three fixed road-line rows (`ROAD_LINE_YS`). -/
def ROAD_LINE_YS : List ℚ :=
  [PLAYFIELD_HEIGHT / 4 * 1, PLAYFIELD_HEIGHT / 4 * 2, PLAYFIELD_HEIGHT / 4 * 3]

/-- Axis-aligned hit rectangle, an offset and size relative to the sprite
position (the `hitbox` objects in the source). -/
structure Rect where
  x : ℚ
  y : ℚ
  w : ℚ
  h : ℚ
deriving DecidableEq, Repr

/-- The closed set of sprite kinds.  The source dispatches behaviour by
subclass and switches on the `name` string; the kind tag models both. -/
inductive SKind where
  | Player
  | Lamb
  | Broccoli
  | Onion
  | Knife
  | RoadLine
  | Sidewalk
  | TitleScreen
  | ClickToStart
  | Credits
  | GameOverMessage
  | NewHiScore
deriving DecidableEq, Repr

/-- A knife's motion state: `Knife.STATE_GROUNDED` / `Knife.STATE_THROWN`. -/
inductive KState where
  | STATE_GROUNDED
  | STATE_THROWN
deriving DecidableEq, Repr

/-- One sprite (class `Sprite` and its subclasses).  All subclass fields are
folded into one structure with defaults matching the JS `undefined` /
constructor behaviour; `kind` selects which ones are meaningful.
`imageWidth` is `this.image.width`, which is `0` until the image has loaded.
An animation is a list of `(frameIndex, durationInTicks)` steps. -/
structure Sprite where
  id : Nat
  kind : SKind
  x : ℚ := 0
  y : ℚ := 0
  frameheight : ℚ
  imageWidth : ℚ := 0
  animations : List (String × List (Nat × Nat))
  animation : List (Nat × Nat)
  animFrame : Nat := 0
  animFrameStep : Nat := 0
  ready : Bool := false
  frames : List Nat := []
  hitbox : Option Rect := none
  sound : Option String := none
  dead : Bool := false
  speed : ℚ := 0
  state : KState := KState.STATE_GROUNDED
  velocity : ℚ × ℚ := (0, 0)
deriving DecidableEq

/-- `Sprite.setAnimation(name)`.  Every call site in the source passes a name
present in the sprite's animation table, so the `getD []` default for an
absent key is never exercised. -/
def Sprite.setAnimation (s : Sprite) (name : String) : Sprite :=
  { s with animation := (s.animations.lookup name).getD []
           animFrame := 0
           animFrameStep := 0 }

/-- `Sprite.nextFrame()`: returns the frame handle for this tick (or `none`
when the asset is not ready) together with the advanced sprite.  Mirrors the
source exactly: the step-advance check `animFrameStep >= current[1]` happens
before the counter is incremented. -/
def Sprite.nextFrame (s : Sprite) : Option Nat × Sprite :=
  if !s.ready then (none, s)
  else
    let current := s.animation.getD s.animFrame (0, 0)
    let s1 :=
      if current.2 ≤ s.animFrameStep then
        { s with animFrameStep := 0
                 animFrame :=
                   if s.animation.length ≤ s.animFrame + 1 then 0
                   else s.animFrame + 1 }
      else s
    let result := s1.frames.get? (s1.animation.getD s1.animFrame (0, 0)).1
    (result, { s1 with animFrameStep := s1.animFrameStep + 1 })

/-- The state part of `nextFrame` (what one render tick does to the clock). -/
def Sprite.nextFrameState (s : Sprite) : Sprite := (s.nextFrame).2

/-- `Sprite.silence()`: drops the sprite's sound handle. -/
def Sprite.silenceSound (s : Sprite) : Sprite := { s with sound := none }

/-- `Sprite.isOnScreen()`. -/
def Sprite.isOnScreen (s : Sprite) : Bool :=
  if s.x > PLAYFIELD_WIDTH || s.x < -s.imageWidth then false
  else if s.y > PLAYFIELD_HEIGHT || s.y < -s.frameheight then false
  else true

/-- `Sprite.finished()`.  `Knife` overrides this only to release its sound
handle when the answer is `true`; the sprite is spliced out immediately
afterwards in every caller, so the predicate is modelled pure. -/
def Sprite.finished (s : Sprite) : Bool := !s.isOnScreen

/-- `Sprite.ensureFullyOnScreen()`: clamps the player inside the playfield;
no-op while the image has not loaded. -/
def Sprite.ensureFullyOnScreen (s : Sprite) : Sprite :=
  if !s.ready then s
  else
    let s := if s.x < 0 then { s with x := 0 } else s
    let s := if s.x > PLAYFIELD_WIDTH - s.imageWidth then
               { s with x := PLAYFIELD_WIDTH - s.imageWidth } else s
    let s := if s.y < 0 then { s with y := 0 } else s
    let s := if s.y > PLAYFIELD_HEIGHT - s.frameheight then
               { s with y := PLAYFIELD_HEIGHT - s.frameheight } else s
    s

/-- `Sprite.intersects(other)`.  When either side lacks a hitbox the source
executes a bare `return;`, producing `undefined`; every call site uses the
result only as an `if` condition, where `undefined` behaves exactly as
`false`, so the missing-hitbox result is embedded as `false`. -/
def Sprite.intersects (s : Sprite) (other : Sprite) : Bool :=
  match s.hitbox, other.hitbox with
  | some hb1, some hb2 =>
      let r1x := s.x + hb1.x
      let r1y := s.y + hb1.y
      let r2x := other.x + hb2.x
      let r2y := other.y + hb2.y
      decide (r1x < r2x + hb2.w) && decide (r1x + hb1.w > r2x) &&
        decide (r1y < r2y + hb2.h) && decide (hb1.h + r1y > r2y)
  | _, _ => false

/-- The sound table keys (`sounds` in the source). -/
def soundNames : List String :=
  ["schwing", "throw", "outtaknives", "onionthrow", "lambkill",
   "teapotdeath", "runningmusic", "attractmusic", "gameovermusic"]

/-- `playSample(name)`: models the returned `AudioBufferSourceNode` handle by
the sample name; an unknown name returns `undefined` (here `none`). -/
def playSample (name : String) : Option String :=
  if soundNames.contains name then some name else none

/-! ### Per-class animation tables and constructors -/

def playerAnimations : List (String × List (Nat × Nat)) :=
  [("idle", [(0, 50)]),
   ("walking", [(1, 5), (2, 5)]),
   ("dead", [(3, 500)]),
   ("wielding", [(4, 5), (5, 5), (6, 5), (7, 5)])]

def lambAnimations : List (String × List (Nat × Nat)) :=
  [("idle", [(0, 50)]),
   ("running", [(1, 5), (2, 5), (3, 5)]),
   ("dead", [(4, 500)])]

def broccoliAnimations : List (String × List (Nat × Nat)) :=
  [("idle", [(0, 50)])]

def onionAnimations : List (String × List (Nat × Nat)) :=
  [("rolling", [(0, 5), (1, 5), (2, 5), (3, 5)])]

def knifeAnimations : List (String × List (Nat × Nat)) :=
  [("grounded", [(0, 50)]),
   ("thrown", [(0, 2), (1, 2), (2, 2), (3, 2)])]

def roadLineAnimations : List (String × List (Nat × Nat)) :=
  [("idle", [(0, 500)])]

def sidewalkAnimations : List (String × List (Nat × Nat)) :=
  [("idle", [(0, 500)])]

def titleScreenAnimations : List (String × List (Nat × Nat)) :=
  [("idle", [(0, 500)])]

def clickToStartAnimations : List (String × List (Nat × Nat)) :=
  [("idle", [(3, 4), (4, 4), (3, 4), (4, 4),
             (0, 6), (1, 6), (2, 6),
             (3, 4), (4, 4), (3, 4), (4, 4)])]

def creditsAnimations : List (String × List (Nat × Nat)) :=
  [("credits", [(0, 20), (1, 20), (2, 20), (3, 20), (4, 20)])]

def gameOverAnimations : List (String × List (Nat × Nat)) :=
  [("idle", [(0, 500)])]

def newHiScoreAnimations : List (String × List (Nat × Nat)) :=
  [("flashing", [(0, 5), (1, 5)])]

/-- `new Player()`.  The base constructor selects the first animation
("idle"); the `Player` constructor then switches to "wielding".  Speed 2.5,
explicit hitbox. -/
def mkPlayer (id : Nat) : Sprite :=
  { id := id
    kind := SKind.Player
    frameheight := 32
    animations := playerAnimations
    animation := (playerAnimations.lookup "wielding").getD []
    x := PLAYFIELD_WIDTH / 4
    y := PLAYFIELD_HEIGHT / 2
    speed := 5 / 2
    hitbox := some ⟨6, 4, 22, 21⟩ }

/-- `new Lamb()`; `r` is the `Math.random()` draw for the spawn row.  No
explicit hitbox: it only appears once the image loads. -/
def mkLamb (id : Nat) (r : ℚ) : Sprite :=
  { id := id
    kind := SKind.Lamb
    frameheight := 32
    animations := lambAnimations
    animation := (lambAnimations.lookup "running").getD []
    x := PLAYFIELD_WIDTH
    y := r * (PLAYFIELD_HEIGHT - 32)
    dead := false }

/-- `new Broccoli()`; `r` is the `Math.random()` draw. -/
def mkBroccoli (id : Nat) (r : ℚ) : Sprite :=
  { id := id
    kind := SKind.Broccoli
    frameheight := 32
    animations := broccoliAnimations
    animation := (broccoliAnimations.lookup "idle").getD []
    x := PLAYFIELD_WIDTH
    y := r * (PLAYFIELD_HEIGHT - 32)
    hitbox := some ⟨10, 6, 12, 16⟩ }

/-- `new Onion()`: spawns on the player's column, rolling vertically from the
far side of the player (`px`, `py` are `gamestate.player`'s position,
`onionSpeed` comes from the game state). -/
def mkOnion (id : Nat) (px py onionSpeed : ℚ) : Sprite :=
  { id := id
    kind := SKind.Onion
    frameheight := 32
    animations := onionAnimations
    animation := (onionAnimations.lookup "rolling").getD []
    x := px
    y := if py < PLAYFIELD_HEIGHT / 2 then PLAYFIELD_HEIGHT else -(32 - 1)
    speed := if py < PLAYFIELD_HEIGHT / 2 then -onionSpeed else onionSpeed
    hitbox := some ⟨6, 6, 20, 21⟩ }

/-- `Knife.setState(newState)`: switches animation, replaces the sound
handle, then records the state. -/
def Sprite.setState (s : Sprite) (newState : KState) : Sprite :=
  match newState with
  | KState.STATE_GROUNDED =>
      { (s.setAnimation "grounded").silenceSound with
        state := KState.STATE_GROUNDED }
  | KState.STATE_THROWN =>
      { (s.setAnimation "thrown").silenceSound with
        sound := playSample "throw"
        state := KState.STATE_THROWN }

/-- `new Knife(initialState)`; `r` is the `Math.random()` draw.  Note the
source computes `Math.random() * PLAYFIELD_HEIGHT - this.frameheight`
(no parentheses), hence `r * 500 - 32`. -/
def mkKnife (id : Nat) (initialState : KState) (r : ℚ) : Sprite :=
  let base : Sprite :=
    { id := id
      kind := SKind.Knife
      frameheight := 32
      animations := knifeAnimations
      animation := (knifeAnimations.lookup "grounded").getD []
      x := PLAYFIELD_WIDTH
      y := r * PLAYFIELD_HEIGHT - 32
      hitbox := some ⟨6, 5, 9, 9⟩ }
  { base.setState initialState with velocity := (6, 0) }

/-- `new RoadLine(y)`. -/
def mkRoadLine (id : Nat) (y : ℚ) : Sprite :=
  { id := id
    kind := SKind.RoadLine
    frameheight := 8
    animations := roadLineAnimations
    animation := (roadLineAnimations.lookup "idle").getD []
    x := PLAYFIELD_WIDTH
    y := y }

/-- `new Sidewalk(y)` (the constructor ignores its argument and uses `y = 0`). -/
def mkSidewalk (id : Nat) : Sprite :=
  { id := id
    kind := SKind.Sidewalk
    frameheight := 32
    animations := sidewalkAnimations
    animation := (sidewalkAnimations.lookup "idle").getD []
    x := PLAYFIELD_WIDTH
    y := 0 }

/-- `new TitleScreen()`. -/
def mkTitleScreen (id : Nat) : Sprite :=
  { id := id
    kind := SKind.TitleScreen
    frameheight := 320
    animations := titleScreenAnimations
    animation := (titleScreenAnimations.lookup "idle").getD []
    x := PLAYFIELD_WIDTH / 2 - 380 / 2
    y := PLAYFIELD_HEIGHT / 2 - 320 / 2 }

/-- `new ClickToStart()`. -/
def mkClickToStart (id : Nat) : Sprite :=
  { id := id
    kind := SKind.ClickToStart
    frameheight := 16
    animations := clickToStartAnimations
    animation := (clickToStartAnimations.lookup "idle").getD []
    x := PLAYFIELD_WIDTH / 2 - 256 / 2
    y := PLAYFIELD_HEIGHT / 2 - 16 / 2 }

/-- `new Credits()`. -/
def mkCredits (id : Nat) : Sprite :=
  { id := id
    kind := SKind.Credits
    frameheight := 16
    animations := creditsAnimations
    animation := (creditsAnimations.lookup "credits").getD []
    x := PLAYFIELD_WIDTH / 2 - 400 / 2
    y := PLAYFIELD_HEIGHT / 2 + 380 / 2 }

/-- `new GameOverMessage()`: plays and holds the "teapotdeath" sample. -/
def mkGameOverMessage (id : Nat) : Sprite :=
  { id := id
    kind := SKind.GameOverMessage
    frameheight := 48
    animations := gameOverAnimations
    animation := (gameOverAnimations.lookup "idle").getD []
    x := PLAYFIELD_WIDTH / 2 - 304 / 2
    y := PLAYFIELD_HEIGHT / 2 - 48 / 2
    sound := playSample "teapotdeath" }

/-- `new NewHiScore()`. -/
def mkNewHiScore (id : Nat) : Sprite :=
  { id := id
    kind := SKind.NewHiScore
    frameheight := 16
    animations := newHiScoreAnimations
    animation := (newHiScoreAnimations.lookup "flashing").getD []
    x := PLAYFIELD_WIDTH / 2 - 240 / 2
    y := PLAYFIELD_HEIGHT / 2 - 16 / 2 + 60 }

/-! ### Game state and world -/

/-- The three game phases (`PHASE_ATTRACT`, `PHASE_RUNNING`, `PHASE_GAME_OVER`). -/
inductive Phase where
  | PHASE_ATTRACT
  | PHASE_RUNNING
  | PHASE_GAME_OVER
deriving DecidableEq, Repr

/-- `KNIFE_COOLDOWN_FRAMES`. -/
def KNIFE_COOLDOWN_FRAMES : ℤ := 20

/-- The `gamestate.inputs` record.  `fire` is absent from
`INITIAL_GAMESTATE.inputs` in the source (so it reads as `undefined`, falsy)
and is set by the key handlers; it defaults to `false` here. -/
structure Inputs where
  left : Bool := false
  right : Bool := false
  down : Bool := false
  up : Bool := false
  fire : Bool := false
deriving DecidableEq

/-- The `gamestate` aggregate.  `player` and `lamb` hold the sprite `id` of
the referenced object (`null` is `none`). -/
structure GameState where
  phase : Phase
  frameDelay : ℤ
  bgsprites : List Sprite
  sprites : List Sprite
  inputs : Inputs
  player : Option Nat
  teabags : ℤ
  knives : ℤ
  score : ℤ
  knifeThrowCooldown : ℤ
  lamb : Option Nat
  lambSpeed : ℚ
  roadSpeed : ℚ
  broccoliFrequency : ℤ
  nextBroccoli : ℤ
  onionFrequency : ℤ
  minOnionScore : ℤ
  nextOnion : ℤ
  onionSpeed : ℚ
  knifeFrequency : ℤ
  nextKnife : ℤ
  roadLineFrequency : ℤ
  nextRoadLine : ℤ
  sidewalkFrequency : ℤ
  nextSidewalk : ℤ
  gameOverMusicDelay : ℤ
deriving DecidableEq

/-- `INITIAL_GAMESTATE`.  `lambSpeed` is 1.5 in the source. -/
def INITIAL_GAMESTATE : GameState :=
  { phase := Phase.PHASE_ATTRACT
    frameDelay := 10
    bgsprites := []
    sprites := []
    inputs := {}
    player := none
    teabags := 3
    knives := 3
    score := 0
    knifeThrowCooldown := KNIFE_COOLDOWN_FRAMES
    lamb := none
    lambSpeed := 3 / 2
    roadSpeed := 3
    broccoliFrequency := 40
    nextBroccoli := 40
    onionFrequency := 200
    minOnionScore := 5000
    nextOnion := 0
    onionSpeed := 4
    knifeFrequency := 400
    nextKnife := 400
    roadLineFrequency := 100
    nextRoadLine := 0
    sidewalkFrequency := 41
    nextSidewalk := 0
    gameOverMusicDelay := 50 }

/-- The whole mutable module state: `gamestate` plus the module-level
variables (`hiScore`, `currentBgMusic`, localStorage), the `Math.random()`
oracle stream, and the sprite-identity allocator. -/
structure World where
  gamestate : GameState
  hiScore : ℤ
  storedHiScore : Option ℤ
  music : Option String
  rng : Nat → ℚ
  rngIdx : Nat
  nextId : Nat

/-- Draw the next `Math.random()` value from the oracle stream. -/
def nextRand (w : World) : ℚ × World :=
  (w.rng w.rngIdx, { w with rngIdx := w.rngIdx + 1 })

/-- Allocate a fresh sprite identity (models JS object identity of a `new`
expression). -/
def allocId (w : World) : Nat × World :=
  (w.nextId, { w with nextId := w.nextId + 1 })

/-- The two sprite collections (`gamestate.sprites` / `gamestate.bgsprites`). -/
inductive Coll where
  | fg
  | bg
deriving DecidableEq

def World.getColl (w : World) (c : Coll) : List Sprite :=
  match c with
  | Coll.fg => w.gamestate.sprites
  | Coll.bg => w.gamestate.bgsprites

def World.setColl (w : World) (c : Coll) (l : List Sprite) : World :=
  match c with
  | Coll.fg => { w with gamestate := { w.gamestate with sprites := l } }
  | Coll.bg => { w with gamestate := { w.gamestate with bgsprites := l } }

/-- Read the sprite at index `i` of collection `c`. -/
def World.getSprite (w : World) (c : Coll) (i : Nat) : Option Sprite :=
  (w.getColl c)[i]?

/-- In-place mutation of the object at index `i` of collection `c`. -/
def World.setSprite (w : World) (c : Coll) (i : Nat) (s : Sprite) : World :=
  w.setColl c ((w.getColl c).set i s)

/-- In-place mutation through an update function; no-op out of range. -/
def World.modifySprite (w : World) (c : Coll) (i : Nat) (f : Sprite → Sprite) : World :=
  match w.getSprite c i with
  | some s => w.setSprite c i (f s)
  | none => w

/-- `gamestate.sprites.push(s)` (interactive sprites are always pushed to the
foreground collection). -/
def World.pushSprite (w : World) (s : Sprite) : World :=
  { w with gamestate := { w.gamestate with sprites := w.gamestate.sprites ++ [s] } }

/-- `gamestate.bgsprites.push(s)`. -/
def World.pushBgSprite (w : World) (s : Sprite) : World :=
  { w with gamestate := { w.gamestate with bgsprites := w.gamestate.bgsprites ++ [s] } }

/-- `coll.splice(i, 1)`. -/
def World.eraseSprite (w : World) (c : Coll) (i : Nat) : World :=
  w.setColl c ((w.getColl c).eraseIdx i)

/-- Find the live foreground object a stored reference (`gamestate.player`,
`gamestate.lamb`) points at. -/
def World.getById (w : World) (id : Nat) : Option Sprite :=
  w.gamestate.sprites.find? (fun s => s.id == id)

/-- `setMusic(name)`: disconnects the current handle and installs the new one. -/
def setMusic (w : World) (name : Option String) : World :=
  match name with
  | none => { w with music := none }
  | some n => { w with music := playSample n }

/-- `silenceAllSprites()`. -/
def silenceAllSprites (w : World) : World :=
  { w with gamestate :=
      { w.gamestate with
          sprites := w.gamestate.sprites.map Sprite.silenceSound
          bgsprites := w.gamestate.bgsprites.map Sprite.silenceSound } }

/-- `setGamePhase(newPhase)`.  The `PHASE_RUNNING` arm replaces `gamestate`
with a deep copy of `INITIAL_GAMESTATE` before installing the new phase and
the freshly constructed player. -/
def setGamePhase (w : World) (newPhase : Phase) : World :=
  match newPhase with
  | Phase.PHASE_ATTRACT =>
      let w := silenceAllSprites w
      let w := setMusic w (some "attractmusic")
      let w := { w with gamestate :=
                  { w.gamestate with phase := Phase.PHASE_ATTRACT, sprites := [] } }
      let (i1, w) := allocId w
      let w := w.pushSprite (mkTitleScreen i1)
      let (i2, w) := allocId w
      let w := w.pushSprite (mkClickToStart i2)
      let (i3, w) := allocId w
      let w := w.pushSprite (mkCredits i3)
      { w with gamestate := { w.gamestate with frameDelay := 100 } }
  | Phase.PHASE_RUNNING =>
      let w := setMusic w (some "runningmusic")
      let w := { w with gamestate := INITIAL_GAMESTATE }
      let w := { w with gamestate := { w.gamestate with phase := Phase.PHASE_RUNNING } }
      let (pid, w) := allocId w
      let w := { w with gamestate := { w.gamestate with player := some pid } }
      w.pushSprite (mkPlayer pid)
  | Phase.PHASE_GAME_OVER =>
      let w := silenceAllSprites w
      let w := setMusic w none
      let w := { w with gamestate := { w.gamestate with phase := Phase.PHASE_GAME_OVER } }
      let (gid, w) := allocId w
      let w := w.pushSprite (mkGameOverMessage gid)
      let w := { w with gamestate := { w.gamestate with frameDelay := 100 } }
      if w.gamestate.score > w.hiScore then
        let w := { w with hiScore := w.gamestate.score }
        let (nid, w) := allocId w
        let w := w.pushSprite (mkNewHiScore nid)
        { w with storedHiScore := some w.gamestate.score }
      else w

/-- `Player.spendKnife(soundOnFail)`.  `this` is passed and returned as a
value `p`; the caller writes it back to the sprite list (the source mutates
the shared player object in place, which is observationally the same).
Returns whether a knife was spent. -/
def spendKnife (w : World) (p : Sprite) (soundOnFail : Bool) : Bool × Sprite × World :=
  if w.gamestate.knives = 0 then
    (false, if soundOnFail then { p with sound := playSample "outtaknives" } else p, w)
  else
    let w := { w with gamestate := { w.gamestate with knives := w.gamestate.knives - 1 } }
    (true, if w.gamestate.knives = 0 then p.setAnimation "walking" else p, w)

/-- `Player.die()`; `this` is the foreground sprite at index `i`. -/
def playerDie (w : World) (i : Nat) : World :=
  setGamePhase (w.modifySprite Coll.fg i (fun p => p.setAnimation "dead"))
    Phase.PHASE_GAME_OVER

/-- `Lamb.die()`; `this` is the foreground sprite at index `j`. -/
def lambDie (w : World) (j : Nat) : World :=
  w.modifySprite Coll.fg j (fun l =>
    { l.setAnimation "dead" with dead := true, sound := playSample "lambkill" })

/-- `Player.interact(other)`: `this` at foreground index `i` (value `s1`),
`other` at index `j` (value `s2`). -/
def playerInteract (w : World) (i j : Nat) (s1 s2 : Sprite) : World :=
  match s2.kind with
  | SKind.Broccoli | SKind.Onion =>
      if s1.intersects s2 then playerDie w i else w
  | SKind.Lamb =>
      if s1.intersects s2 then
        if s2.dead then w
        else
          match spendKnife w s1 false with
          | (spent, p', w) =>
            if spent then
              let w := w.setSprite Coll.fg i p'
              let w := lambDie w j
              { w with gamestate := { w.gamestate with score := w.gamestate.score + 1000 } }
            else w
      else w
  | SKind.Knife =>
      if s1.intersects s2 then
        if s2.state = KState.STATE_GROUNDED then
          let w := { w with gamestate := { w.gamestate with knives := w.gamestate.knives + 1 } }
          let w := if w.gamestate.knives = (1 : ℤ) then
                     w.modifySprite Coll.fg i (fun p => p.setAnimation "wielding")
                   else w
          let w := { w with gamestate := { w.gamestate with score := w.gamestate.score + 100 } }
          w.modifySprite Coll.fg j (fun k => { k with x := -100 })
        else playerDie w i
      else w
  | _ => w

/-- `Knife.interact(other)`: a thrown knife grounds on hazards and kills a
living lamb, deflecting with a random vertical velocity. -/
def knifeInteract (w : World) (i j : Nat) (s1 s2 : Sprite) : World :=
  if s1.state ≠ KState.STATE_THROWN then w
  else
    match s2.kind with
    | SKind.Broccoli | SKind.Onion =>
        if s1.intersects s2 then
          w.modifySprite Coll.fg i (fun k => k.setState KState.STATE_GROUNDED)
        else w
    | SKind.Lamb =>
        if s1.intersects s2 then
          if s2.dead then w
          else
            let w := lambDie w j
            let w := { w with gamestate := { w.gamestate with score := w.gamestate.score + 1000 } }
            let (r, w) := nextRand w
            w.modifySprite Coll.fg i (fun k =>
              { k with velocity := (k.velocity.1 * (-1), r * 4 - 2) })
        else w
    | _ => w

/-- One `s1.interact(s2)` call of the interaction pass, `s1` at foreground
index `i`, `s2` at index `j`.  All sprite kinds other than `Player` and
`Knife` inherit the base no-op `interact`. -/
def interactStep (w : World) (i j : Nat) : World :=
  match w.getSprite Coll.fg i, w.getSprite Coll.fg j with
  | some s1, some s2 =>
      match s1.kind with
      | SKind.Player => playerInteract w i j s1 s2
      | SKind.Knife => knifeInteract w i j s1 s2
      | _ => w
  | _, _ => w

/-- The inner `for (var s2 of sprites)` scan: `j` runs over the live array,
which may grow while it is scanned (a dying player pushes overlay sprites).
The fuel only bounds the recursion; `3 * length + 4` always suffices because
pushes happen only in `Player.die`, at most twice per hazard the scan visits,
and pushed overlay sprites trigger no further pushes. -/
def innerScan : Nat → World → Nat → Nat → World
  | 0, w, _, _ => w
  | fuel + 1, w, i, j =>
      if j < w.gamestate.sprites.length then
        innerScan fuel (interactStep w i j) i (j + 1)
      else w

/-- The outer loop of `interact(sprites)`: `i` walks from the initial last
index down to 0; after the inner scan the sprite at `i` is spliced out if
`finished()`. -/
def interactLoop : World → Nat → World
  | w, 0 => w
  | w, i + 1 =>
      let w1 := innerScan (3 * w.gamestate.sprites.length + 4) w i 0
      let w2 :=
        match w1.getSprite Coll.fg i with
        | some s1 => if s1.finished then w1.eraseSprite Coll.fg i else w1
        | none => w1
      interactLoop w2 i

/-- `interact(gamestate.sprites)`: one full interaction pass. -/
def interactPass (w : World) : World :=
  interactLoop w w.gamestate.sprites.length

/-- The directional part of `Player.move()`: the four input-driven mutations
of `this.x` / `this.y`. -/
def dirMove (inp : Inputs) (s0 : Sprite) : Sprite :=
  let s := if inp.left then { s0 with x := s0.x - s0.speed } else s0
  let s := if inp.right then { s with x := s.x + s.speed } else s
  let s := if inp.up then { s with y := s.y - s.speed } else s
  if inp.down then { s with y := s.y + s.speed } else s

/-- `Player.move()`: directional movement, knife throwing, clamping.
`this` is threaded as a value and written back to its slot once (the source
mutates the shared object in place; none of the interleaved game-state reads
and writes look at the sprite list, so this is observationally the same).
The source pushes the new knife and then positions it next to the player —
the same object — so position-then-push is equivalent; the knife is placed
from the pre-clamp player position because `ensureFullyOnScreen()` runs
after the fire block. -/
def playerMove (w : World) (c : Coll) (i : Nat) (s0 : Sprite) : World :=
  let s := dirMove w.gamestate.inputs s0
  if w.gamestate.inputs.fire = true ∧ w.gamestate.knifeThrowCooldown = 0 then
    let w1 := { w with gamestate :=
                 { w.gamestate with knifeThrowCooldown := KNIFE_COOLDOWN_FRAMES } }
    match spendKnife w1 s true with
    | (spent, s2, w2) =>
      let w3 := w2.setSprite c i s2.ensureFullyOnScreen
      if spent then
        let (r, w4) := nextRand w3
        let (kid, w5) := allocId w4
        let k := { mkKnife kid KState.STATE_THROWN r with
                   x := s2.x + (match s2.hitbox with | some hb => hb.w | none => 0)
                   y := s2.y }
        w5.pushSprite k
      else w3
  else
    w.setSprite c i s.ensureFullyOnScreen

/-- One `s.move()` call of the movement pass, dispatched by kind exactly as
the subclass overrides do.  Kinds with no override inherit the base no-op. -/
def moveSpriteAt (w : World) (c : Coll) (i : Nat) : World :=
  match (w.getColl c)[i]? with
  | none => w
  | some s =>
    match s.kind with
    | SKind.Player => playerMove w c i s
    | SKind.Lamb =>
        w.setSprite c i
          { s with x := s.x - (if s.dead then w.gamestate.roadSpeed
                               else w.gamestate.lambSpeed) }
    | SKind.Broccoli => w.setSprite c i { s with x := s.x - w.gamestate.roadSpeed }
    | SKind.Onion => w.setSprite c i { s with y := s.y + s.speed }
    | SKind.Knife =>
        match s.state with
        | KState.STATE_GROUNDED =>
            w.setSprite c i { s with x := s.x - w.gamestate.roadSpeed }
        | KState.STATE_THROWN =>
            w.setSprite c i { s with x := s.x + s.velocity.1, y := s.y + s.velocity.2 }
    | SKind.RoadLine => w.setSprite c i { s with x := s.x - w.gamestate.roadSpeed }
    | SKind.Sidewalk => w.setSprite c i { s with x := s.x - w.gamestate.roadSpeed }
    | _ => w

/-- Record of one visit of the movement pass: the visited sprite's kind, its
value right after its `move()`, and whether `finished()` held then (which is
exactly the splice condition). -/
structure Visit where
  k : SKind
  after : Sprite
  fin : Bool

/-- The loop of `move(sprites)`: `i` runs from the initial last index down
to 0; each sprite is moved, then spliced out if `finished()`.  Also returns
the visits in visit order.  The `none` branch is unreachable (`i` is always
in range) but keeps the function total. -/
def moveLoop (c : Coll) : World → Nat → World × List Visit
  | w, 0 => (w, [])
  | w, i + 1 =>
      let w1 := moveSpriteAt w c i
      match (w1.getColl c)[i]? with
      | none => moveLoop c w1 i
      | some s' =>
          let fin := s'.finished
          let w2 := if fin then w1.eraseSprite c i else w1
          let r := moveLoop c w2 i
          (r.1, ⟨s'.kind, s', fin⟩ :: r.2)

/-- `move(coll)`: one full movement/pruning pass over a collection. -/
def movePass (c : Coll) (w : World) : World :=
  (moveLoop c w (w.getColl c).length).1

/-- The visit trace of `move(coll)`. -/
def movePassVisits (c : Coll) (w : World) : List Visit :=
  (moveLoop c w (w.getColl c).length).2

/-- `prepareRender()`: depth-sorts the foreground sprites by `y` (stable, as
`Array.prototype.sort` is). -/
def prepareRenderSort (w : World) : World :=
  { w with gamestate :=
      { w.gamestate with
          sprites := w.gamestate.sprites.mergeSort (fun a b => decide (a.y ≤ b.y)) } }

/-- `render(ctx, sprites)` advances every sprite's frame clock; drawing
itself is external.  A `null` frame (asset not ready) is skipped. -/
def renderAdvance (l : List Sprite) : List Sprite :=
  l.map Sprite.nextFrameState

/-- The per-tick render tail common to all phases: sort, then advance the
frame clocks of both collections (the status bar reads but mutates nothing). -/
def renderPhase (w : World) : World :=
  let w := prepareRenderSort w
  let w := { w with gamestate :=
              { w.gamestate with bgsprites := renderAdvance w.gamestate.bgsprites } }
  { w with gamestate :=
      { w.gamestate with sprites := renderAdvance w.gamestate.sprites } }

/-- One `gameloop()` iteration in `PHASE_ATTRACT`. -/
def attractTick (w : World) : World := renderPhase w

/-- One `gameloop()` iteration in `PHASE_GAME_OVER`:
`if (gamestate.gameOverMusicDelay-- === 0) setMusic("gameovermusic")`
(post-decrement: the old value is compared), then the render tail. -/
def gameOverTick (w : World) : World :=
  let old := w.gamestate.gameOverMusicDelay
  let w := { w with gamestate := { w.gamestate with gameOverMusicDelay := old - 1 } }
  let w := if old = 0 then setMusic w (some "gameovermusic") else w
  renderPhase w

/-- The lamb respawn rule: edge-triggered on the previous lamb being absent
or finished.  A lamb object no longer in the sprite list was spliced out at
a moment when `finished()` held and is never mutated afterwards, so absence
is modelled as finished. -/
def spawnLamb (w : World) : World :=
  let lambGone :=
    match w.gamestate.lamb with
    | none => true
    | some id =>
        match w.getById id with
        | some l => l.finished
        | none => true
  if lambGone then
    let (r, w) := nextRand w
    let (lid, w) := allocId w
    let w := { w with gamestate := { w.gamestate with lamb := some lid } }
    w.pushSprite (mkLamb lid r)
  else w

/-- `if (gamestate.nextBroccoli-- == 0) { reset; push }` — the old counter
value is compared, then decremented. -/
def spawnBroccoli (w : World) : World :=
  let old := w.gamestate.nextBroccoli
  let w := { w with gamestate := { w.gamestate with nextBroccoli := old - 1 } }
  if old = 0 then
    let w := { w with gamestate :=
                { w.gamestate with nextBroccoli := w.gamestate.broccoliFrequency } }
    let (r, w) := nextRand w
    let (bid, w) := allocId w
    w.pushSprite (mkBroccoli bid r)
  else w

/-- The periodic road-line batch (three background sprites per firing). -/
def spawnRoadLines (w : World) : World :=
  let old := w.gamestate.nextRoadLine
  let w := { w with gamestate := { w.gamestate with nextRoadLine := old - 1 } }
  if old = 0 then
    let w := { w with gamestate :=
                { w.gamestate with nextRoadLine := w.gamestate.roadLineFrequency } }
    ROAD_LINE_YS.foldl (fun w y =>
      let (rid, w) := allocId w
      w.pushBgSprite (mkRoadLine rid y)) w
  else w

/-- The periodic sidewalk background sprite. -/
def spawnSidewalk (w : World) : World :=
  let old := w.gamestate.nextSidewalk
  let w := { w with gamestate := { w.gamestate with nextSidewalk := old - 1 } }
  if old = 0 then
    let w := { w with gamestate :=
                { w.gamestate with nextSidewalk := w.gamestate.sidewalkFrequency } }
    let (sid, w) := allocId w
    w.pushBgSprite (mkSidewalk sid)
  else w

/-- The score-gated onion rule; `&&` short-circuits, so the countdown only
runs once the score gate is open.  The `(0, 0)` fallback for the player
position is unreachable: the player object is in the sprite list whenever
this rule runs. -/
def spawnOnion (w : World) : World :=
  if w.gamestate.score > w.gamestate.minOnionScore then
    let old := w.gamestate.nextOnion
    let w := { w with gamestate := { w.gamestate with nextOnion := old - 1 } }
    if old = 0 then
      let pxy :=
        match w.gamestate.player.bind w.getById with
        | some p => (p.x, p.y)
        | none => ((0 : ℚ), (0 : ℚ))
      let (oid, w) := allocId w
      let w := w.pushSprite (mkOnion oid pxy.1 pxy.2 w.gamestate.onionSpeed)
      { w with gamestate := { w.gamestate with nextOnion := w.gamestate.onionFrequency } }
    else w
  else w

/-- The periodic grounded-knife pickup rule. -/
def spawnKnife (w : World) : World :=
  let old := w.gamestate.nextKnife
  let w := { w with gamestate := { w.gamestate with nextKnife := old - 1 } }
  if old = 0 then
    let w := { w with gamestate :=
                { w.gamestate with nextKnife := w.gamestate.knifeFrequency } }
    let (r, w) := nextRand w
    let (kid, w) := allocId w
    w.pushSprite (mkKnife kid KState.STATE_GROUNDED r)
  else w

/-- One `gameloop()` iteration in `PHASE_RUNNING`: spawn rules, cooldown,
movement passes, interaction pass, render tail — in source order. -/
def runningTick (w : World) : World :=
  let w := spawnLamb w
  let w := spawnBroccoli w
  let w := spawnRoadLines w
  let w := spawnSidewalk w
  let w := spawnOnion w
  let w := spawnKnife w
  let w := { w with gamestate :=
              { w.gamestate with
                  knifeThrowCooldown := max (w.gamestate.knifeThrowCooldown - 1) 0 } }
  let w := movePass Coll.bg w
  let w := movePass Coll.fg w
  let w := interactPass w
  renderPhase w

/-! ### Claim C7: intersects with a missing hitbox -/

/-- C7: for every pair of entities where at least one side lacks a
hit-rectangle, `intersects(other)` returns false (it does not raise an
error), regardless of positions.  (The source's bare `return;` yields
`undefined`, which behaves as `false` at every boolean use site.) -/
theorem C7_intersects_without_hitbox (a b : Sprite)
    (h : a.hitbox = none ∨ b.hitbox = none) :
    a.intersects b = false := by
  unfold Sprite.intersects
  rcases ha : a.hitbox with _ | r1
  · rfl
  · rcases hb : b.hitbox with _ | r2
    · rfl
    · rcases h with h | h
      · rw [h] at ha; cases ha
      · rw [h] at hb; cases hb

/-- Witness for C7: a freshly spawned lamb has no hitbox yet (it is only
installed when its image loads) and intersects nothing. -/
theorem C7_witness :
    (mkLamb 0 0).hitbox = none ∧ (mkLamb 0 0).intersects (mkPlayer 1) = false :=
  ⟨rfl, C7_intersects_without_hitbox _ _ (Or.inl rfl)⟩

/-! ### Claim C8: unready asset yields no frame and keeps the clock -/

/-- C8: for every entity whose backing asset has not finished loading,
`nextFrame` yields no frame for the tick and returns the sprite unchanged:
the renderer's `if (image == null) continue;` skips drawing it, no fault is
raised, and the whole animation clock (animation, step index, per-frame
counter) is kept. -/
theorem C8_not_ready_no_frame (s : Sprite) (h : s.ready = false) :
    s.nextFrame = (none, s) := by
  simp [Sprite.nextFrame, h]

/-- Witness for C8: a freshly constructed player is not ready. -/
theorem C8_witness :
    (mkPlayer 0).ready = false ∧ (mkPlayer 0).nextFrame = (none, mkPlayer 0) :=
  ⟨rfl, C8_not_ready_no_frame _ rfl⟩

/-! ### Claim C5: frame advancement cadence

The source checks `animFrameStep >= current[1]` and only then increments the
counter, so from a freshly set animation (counter 0) the first transition
happens on call N + 1, not call N.  In the steady state immediately after
any transition the counter is 1 and each further step takes exactly N calls. -/

/-- A render tick with the asset ready and the step budget not yet reached
only increments the per-frame counter. -/
theorem nextFrameState_stay (s : Sprite) (st : Nat × Nat) (hr : s.ready = true)
    (hd : s.animation[s.animFrame]? = some st)
    (h : s.animFrameStep < st.2) :
    s.nextFrameState = { s with animFrameStep := s.animFrameStep + 1 } := by
  simp [Sprite.nextFrameState, Sprite.nextFrame, List.getD, hr, hd, Nat.not_le.mpr h]

/-- A render tick at the moment the step budget is reached advances to the
next step (wrapping past the end to 0) and leaves the counter at 1. -/
theorem nextFrameState_advance (s : Sprite) (st : Nat × Nat) (hr : s.ready = true)
    (hd : s.animation[s.animFrame]? = some st)
    (h : st.2 ≤ s.animFrameStep) :
    s.nextFrameState =
      { s with animFrameStep := 1
               animFrame := if s.animation.length ≤ s.animFrame + 1 then 0
                            else s.animFrame + 1 } := by
  simp [Sprite.nextFrameState, Sprite.nextFrame, List.getD, hr, hd, h]

/-- Iterated render ticks within the current step's budget only accumulate
the per-frame counter. -/
theorem nextFrameState_iter_stay (k : Nat) :
    ∀ (s : Sprite) (st : Nat × Nat), s.ready = true →
      s.animation[s.animFrame]? = some st →
      s.animFrameStep + k ≤ st.2 →
      Sprite.nextFrameState^[k] s = { s with animFrameStep := s.animFrameStep + k } := by
  induction k with
  | zero => intro s st _ _ _; simp
  | succ n ih =>
      intro s st hr hd hk
      rw [Function.iterate_succ_apply,
          nextFrameState_stay s st hr hd (by omega)]
      rw [ih { s with animFrameStep := s.animFrameStep + 1 } st hr hd
            (show s.animFrameStep + 1 + n ≤ st.2 by omega)]
      have h2 : s.animFrameStep + 1 + n = s.animFrameStep + (n + 1) := by omega
      rw [show ({ s with animFrameStep := s.animFrameStep + 1 } : Sprite).animFrameStep
            = s.animFrameStep + 1 from rfl, h2]

/-- C5 (amended): for an entity whose asset is ready and whose current
animation step has configured duration N ≥ 1, with the per-frame counter at
1 — its value immediately after any step transition — N calls of the
frame-advance operation transition to the next step exactly once (the step
index is unchanged after every k < N calls, and after the N-th it has
advanced by one, wrapping past the final step of the step list to index 0,
with the counter again at 1).  From a freshly reset animation the counter is
0 and the first transition takes N + 1 calls instead, which is what the
counterexample exhibits. -/
theorem C5_frame_advance_amended (s : Sprite) (st : Nat × Nat) (d : Nat)
    (hr : s.ready = true)
    (hd : s.animation[s.animFrame]? = some st)
    (hdur : st.2 = d)
    (h1 : 1 ≤ d)
    (hc : s.animFrameStep = 1) :
    (∀ k, k < d → (Sprite.nextFrameState^[k] s).animFrame = s.animFrame) ∧
    (Sprite.nextFrameState^[d] s).animFrame =
      (if s.animation.length ≤ s.animFrame + 1 then 0 else s.animFrame + 1) ∧
    (Sprite.nextFrameState^[d] s).animFrameStep = 1 := by
  have stay : ∀ k, k + 1 ≤ d →
      Sprite.nextFrameState^[k] s = { s with animFrameStep := 1 + k } := by
    intro k hk
    have h3 := nextFrameState_iter_stay k s st hr hd (by omega)
    rw [hc] at h3
    exact h3
  have adv : Sprite.nextFrameState^[d] s =
      { s with animFrameStep := 1
               animFrame := if s.animation.length ≤ s.animFrame + 1 then 0
                            else s.animFrame + 1 } := by
    have hsplit : d = (d - 1) + 1 := by omega
    rw [hsplit, Function.iterate_succ_apply', stay (d - 1) (by omega),
        nextFrameState_advance { s with animFrameStep := 1 + (d - 1) } st hr hd
          (show st.2 ≤ 1 + (d - 1) by omega)]
  refine ⟨?_, ?_, ?_⟩
  · intro k hk
    rw [stay k (by omega)]
  · rw [adv]
  · rw [adv]

/-- A ready sprite in the state `setAnimation` leaves it in (per-frame
counter 0), with a two-step animation whose current step has duration 1. -/
def freshTwoStep : Sprite :=
  { id := 0
    kind := SKind.Lamb
    frameheight := 32
    animations := [("a", [(0, 1), (1, 1)])]
    animation := [(0, 1), (1, 1)]
    ready := true
    frames := [10, 20] }

/-- C5 counterexample: `freshTwoStep` is ready and its current animation step
has configured duration N = 1, but calling the frame-advance operation N = 1
times does not transition to the next step (index 1): the step index is
still 0, so the claim's "N calls transition exactly once" fails for a
freshly set animation. -/
theorem C5_counterexample :
    freshTwoStep.ready = true ∧
    (freshTwoStep.animation[freshTwoStep.animFrame]?.map Prod.snd) = some 1 ∧
    (Sprite.nextFrameState^[1] freshTwoStep).animFrame ≠ 1 ∧
    (Sprite.nextFrameState^[1] freshTwoStep).animFrame = 0 := by
  refine ⟨rfl, rfl, ?_, ?_⟩ <;>
    simp [Function.iterate_one, Sprite.nextFrameState, Sprite.nextFrame, freshTwoStep]

/-- A ready sprite in the steady state right after a transition (counter 1),
current step duration 2. -/
def steadyTwoStep : Sprite :=
  { freshTwoStep with
      animations := [("a", [(0, 2), (1, 3)])]
      animation := [(0, 2), (1, 3)]
      animFrameStep := 1 }

/-- Witness for the amended C5 at a concrete sprite: from the steady state,
2 calls advance the two-duration step exactly once. -/
theorem C5_witness :
    steadyTwoStep.ready = true ∧
    steadyTwoStep.animation[steadyTwoStep.animFrame]? = some (0, 2) ∧
    steadyTwoStep.animFrameStep = 1 ∧
    ((∀ k, k < 2 →
        (Sprite.nextFrameState^[k] steadyTwoStep).animFrame = steadyTwoStep.animFrame) ∧
     (Sprite.nextFrameState^[2] steadyTwoStep).animFrame =
       (if steadyTwoStep.animation.length ≤ steadyTwoStep.animFrame + 1 then 0
        else steadyTwoStep.animFrame + 1) ∧
     (Sprite.nextFrameState^[2] steadyTwoStep).animFrameStep = 1) :=
  ⟨rfl, rfl, rfl,
   C5_frame_advance_amended steadyTwoStep (0, 2) 2 rfl rfl rfl (by omega) rfl⟩

/-! ### Claim C1: player kills an overlapping living lamb -/

/-- Changing the animation does not change `finished()` (it only reads
position and dimensions). -/
theorem finished_setAnimation (s : Sprite) (n : String) :
    (s.setAnimation n).finished = s.finished := rfl

/-- Dropping the sound handle does not change `finished()`. -/
theorem finished_silenceSound (s : Sprite) :
    s.silenceSound.finished = s.finished := rfl

/-- The mutation `Lamb.die()` performs does not change `finished()`. -/
theorem finished_mark_dead (s : Sprite) (n : String) (snd : Option String) :
    ({ s.setAnimation n with dead := true, sound := snd } : Sprite).finished
      = s.finished := rfl

theorem setAnimation_kind (s : Sprite) (n : String) :
    (s.setAnimation n).kind = s.kind := rfl

theorem setAnimation_animations (s : Sprite) (n : String) :
    (s.setAnimation n).animations = s.animations := rfl

theorem setAnimation_animation (s : Sprite) (n : String) :
    (s.setAnimation n).animation = (s.animations.lookup n).getD [] := rfl

theorem silenceSound_kind (s : Sprite) : s.silenceSound.kind = s.kind := rfl

theorem silenceSound_animation (s : Sprite) :
    s.silenceSound.animation = s.animation := rfl

/-- C1: for a player and a living lamb whose hit-rectangles overlap, with at
least one knife in stock, one interaction pass leaves both sprites in place
with the lamb marked dead, the knife count decreased by exactly 1 and the
score increased by exactly 1000. -/
theorem C1_player_kills_lamb (w : World) (p l : Sprite)
    (hs : w.gamestate.sprites = [p, l])
    (hpk : p.kind = SKind.Player)
    (hlk : l.kind = SKind.Lamb)
    (hint : p.intersects l = true)
    (hdead : l.dead = false)
    (hk : 1 ≤ w.gamestate.knives)
    (hpf : p.finished = false)
    (hlf : l.finished = false) :
    (interactPass w).gamestate.sprites.length = 2 ∧
    ((interactPass w).gamestate.sprites[1]?.map Sprite.dead) = some true ∧
    (interactPass w).gamestate.knives = w.gamestate.knives - 1 ∧
    (interactPass w).gamestate.score = w.gamestate.score + 1000 := by
  have hk0 : ¬ w.gamestate.knives = 0 := by omega
  by_cases hk1 : w.gamestate.knives - 1 = 0 <;>
    simp [interactPass, interactLoop, innerScan, interactStep, playerInteract,
          spendKnife, lambDie, World.getSprite, World.getColl, World.setColl,
          World.setSprite, World.modifySprite, hs, hpk, hlk, hint, hdead, hk0, hk1,
          finished_setAnimation, finished_silenceSound, finished_mark_dead,
          hpf, hlf]

/-- A minimal concrete world used by witnesses: the initial game state, a
zero high score, a constant random oracle. -/
def emptyWorld : World :=
  { gamestate := INITIAL_GAMESTATE
    hiScore := 0
    storedHiScore := none
    music := none
    rng := fun _ => 0
    rngIdx := 0
    nextId := 100 }

/-- A loaded player repositioned to (100, 100). -/
def c1Player : Sprite := { mkPlayer 0 with x := 100, y := 100 }

/-- A lamb whose image has loaded (default hitbox installed), overlapping the
player. -/
def c1Lamb : Sprite :=
  { mkLamb 1 0 with x := 100, y := 100, hitbox := some ⟨0, 0, 24, 32⟩ }

def c1World : World :=
  { emptyWorld with gamestate := { INITIAL_GAMESTATE with sprites := [c1Player, c1Lamb] } }

/-- Witness for C1 at a concrete overlapping player/lamb pair with 3 knives. -/
theorem C1_witness :
    (c1World.gamestate.sprites = [c1Player, c1Lamb] ∧
     c1Player.intersects c1Lamb = true ∧
     c1Lamb.dead = false ∧
     1 ≤ c1World.gamestate.knives) ∧
    ((interactPass c1World).gamestate.sprites.length = 2 ∧
     ((interactPass c1World).gamestate.sprites[1]?.map Sprite.dead) = some true ∧
     (interactPass c1World).gamestate.knives = c1World.gamestate.knives - 1 ∧
     (interactPass c1World).gamestate.score = c1World.gamestate.score + 1000) :=
  ⟨⟨rfl, by norm_num [c1Player, c1Lamb, mkPlayer, mkLamb, Sprite.intersects,
        PLAYFIELD_WIDTH, PLAYFIELD_HEIGHT], rfl, by norm_num [c1World, emptyWorld, INITIAL_GAMESTATE]⟩,
   C1_player_kills_lamb c1World c1Player c1Lamb rfl rfl rfl
     (by norm_num [c1Player, c1Lamb, mkPlayer, mkLamb, Sprite.intersects,
        PLAYFIELD_WIDTH, PLAYFIELD_HEIGHT])
     rfl
     (by norm_num [c1World, emptyWorld, INITIAL_GAMESTATE])
     (by norm_num [c1Player, mkPlayer, Sprite.finished, Sprite.isOnScreen,
        PLAYFIELD_WIDTH, PLAYFIELD_HEIGHT])
     (by norm_num [c1Lamb, mkLamb, Sprite.finished, Sprite.isOnScreen,
        PLAYFIELD_WIDTH, PLAYFIELD_HEIGHT])⟩

/-! ### Claim C2: player touching a hazard triggers game over -/

/-- C2: for a player and a hazard (broccoli or onion) whose hit-rectangles
overlap, one interaction pass leaves the phase at `PHASE_GAME_OVER`, the
player in the "dead" animation (`[[3, 500]]` in the player's animation
table), and a game-over overlay sprite present in the foreground
collection. -/
theorem C2_player_hazard_gameover (w : World) (p h : Sprite)
    (hs : w.gamestate.sprites = [p, h])
    (hpk : p.kind = SKind.Player)
    (hhk : h.kind = SKind.Broccoli ∨ h.kind = SKind.Onion)
    (hanim : p.animations = playerAnimations)
    (hint : p.intersects h = true)
    (hpf : p.finished = false)
    (hhf : h.finished = false) :
    (interactPass w).gamestate.phase = Phase.PHASE_GAME_OVER ∧
    ((interactPass w).gamestate.sprites[0]?.map Sprite.animation) = some [(3, 500)] ∧
    (interactPass w).gamestate.sprites.any
      (fun s => s.kind == SKind.GameOverMessage) = true := by
  rcases hhk with hhk | hhk <;> by_cases hhi : w.gamestate.score > w.hiScore <;>
    simp [interactPass, interactLoop, innerScan, interactStep, playerInteract,
          playerDie, setGamePhase, silenceAllSprites, setMusic, allocId,
          World.pushSprite, World.getSprite, World.getColl, World.setColl,
          World.setSprite, World.modifySprite, List.lookup,
          playerAnimations, mkGameOverMessage, mkNewHiScore,
          hs, hpk, hhk, hanim, hint, hhi,
          finished_setAnimation, finished_silenceSound, hpf, hhf,
          setAnimation_kind, setAnimation_animations, setAnimation_animation,
          silenceSound_kind, silenceSound_animation]

/-- A loaded player repositioned to (100, 100). -/
def c2Player : Sprite := { mkPlayer 10 with x := 100, y := 100 }

/-- A broccoli repositioned to overlap the player. -/
def c2Broccoli : Sprite := { mkBroccoli 11 0 with x := 100, y := 100 }

def c2World : World :=
  { emptyWorld with gamestate := { INITIAL_GAMESTATE with sprites := [c2Player, c2Broccoli] } }

/-- Witness for C2 at a concrete overlapping player/broccoli pair. -/
theorem C2_witness :
    (c2World.gamestate.sprites = [c2Player, c2Broccoli] ∧
     c2Broccoli.kind = SKind.Broccoli ∧
     c2Player.intersects c2Broccoli = true) ∧
    ((interactPass c2World).gamestate.phase = Phase.PHASE_GAME_OVER ∧
     ((interactPass c2World).gamestate.sprites[0]?.map Sprite.animation) = some [(3, 500)] ∧
     (interactPass c2World).gamestate.sprites.any
       (fun s => s.kind == SKind.GameOverMessage) = true) :=
  ⟨⟨rfl, rfl, by norm_num [c2Player, c2Broccoli, mkPlayer, mkBroccoli,
      Sprite.intersects, PLAYFIELD_WIDTH, PLAYFIELD_HEIGHT]⟩,
   C2_player_hazard_gameover c2World c2Player c2Broccoli rfl rfl (Or.inl rfl) rfl
     (by norm_num [c2Player, c2Broccoli, mkPlayer, mkBroccoli, Sprite.intersects,
        PLAYFIELD_WIDTH, PLAYFIELD_HEIGHT])
     (by norm_num [c2Player, mkPlayer, Sprite.finished, Sprite.isOnScreen,
        PLAYFIELD_WIDTH, PLAYFIELD_HEIGHT])
     (by norm_num [c2Broccoli, mkBroccoli, Sprite.finished, Sprite.isOnScreen,
        PLAYFIELD_WIDTH, PLAYFIELD_HEIGHT])⟩

/-! ### Claim C3: the reset on entering the running phase -/

/-- The game state produced by entering `PHASE_RUNNING`: a fresh deep copy of
`INITIAL_GAMESTATE` with the running phase and one newly built player, a
function of nothing but the object-identity allocator. -/
def freshRunningState (pid : Nat) : GameState :=
  { INITIAL_GAMESTATE with
      phase := Phase.PHASE_RUNNING
      player := some pid
      sprites := [mkPlayer pid] }

/-- C3: for every prior world, entering `PHASE_RUNNING` yields a game state
equal to the fresh initial configuration — in particular score 0, knives 3
(the configured initial value), exactly one player sprite in the foreground
collection, and the frame delay at the fast gameplay rate 10.  The first
conjunct shows the whole resulting game state depends only on the identity
allocator (which models JS `new`), so no state from the previous run
survives the reset. -/
theorem C3_running_reset (w : World) :
    (setGamePhase w Phase.PHASE_RUNNING).gamestate = freshRunningState w.nextId ∧
    (setGamePhase w Phase.PHASE_RUNNING).gamestate.score = 0 ∧
    (setGamePhase w Phase.PHASE_RUNNING).gamestate.knives = 3 ∧
    (setGamePhase w Phase.PHASE_RUNNING).gamestate.frameDelay = 10 ∧
    ((setGamePhase w Phase.PHASE_RUNNING).gamestate.sprites.countP
        (fun s => s.kind == SKind.Player)) = 1 := by
  refine ⟨rfl, rfl, rfl, rfl, rfl⟩

/-! ### Claim C4: high-score update on the game-over transition -/

/-- Number of sprites of a given kind in a collection. -/
def countKind (l : List Sprite) (k : SKind) : Nat :=
  l.countP (fun s => s.kind == k)

theorem countKind_map (f : Sprite → Sprite) (hf : ∀ s, (f s).kind = s.kind) :
    ∀ (l : List Sprite) (k : SKind), countKind (l.map f) k = countKind l k := by
  intro l k
  induction l with
  | nil => rfl
  | cons a t ih =>
      unfold countKind at *
      simp only [List.map_cons, List.countP_cons, hf a, ih]

theorem countKind_silenceAll (l : List Sprite) (k : SKind) :
    countKind (l.map Sprite.silenceSound) k = countKind l k :=
  countKind_map Sprite.silenceSound (fun _ => rfl) l k

theorem countKind_append (l₁ l₂ : List Sprite) (k : SKind) :
    countKind (l₁ ++ l₂) k = countKind l₁ k + countKind l₂ k :=
  List.countP_append _ _ _

/-- Advancing the frame clock does not change a sprite's kind. -/
theorem nextFrameState_kind (s : Sprite) : s.nextFrameState.kind = s.kind := by
  unfold Sprite.nextFrameState Sprite.nextFrame
  cases hr : s.ready
  · rfl
  · simp only [Bool.not_true, Bool.false_eq_true, if_false]
    split <;> rfl

/-- The foreground collection after the render tail is the depth-sorted
collection with every frame clock advanced. -/
theorem renderPhase_sprites (w : World) :
    (renderPhase w).gamestate.sprites
      = (w.gamestate.sprites.mergeSort (fun a b => decide (a.y ≤ b.y))).map
          Sprite.nextFrameState := rfl

theorem renderPhase_hiScore (w : World) : (renderPhase w).hiScore = w.hiScore := rfl

theorem renderPhase_stored (w : World) :
    (renderPhase w).storedHiScore = w.storedHiScore := rfl

/-- The render tail permutes and clock-advances the foreground sprites, so
per-kind counts are unchanged. -/
theorem renderPhase_countKind (w : World) (k : SKind) :
    countKind (renderPhase w).gamestate.sprites k
      = countKind w.gamestate.sprites k := by
  rw [renderPhase_sprites, countKind_map Sprite.nextFrameState nextFrameState_kind]
  exact (List.mergeSort_perm _ _).countP_eq _

/-- A tick spent in `PHASE_GAME_OVER` does not touch the stored high score. -/
theorem gameOverTick_hiScore (w : World) : (gameOverTick w).hiScore = w.hiScore := by
  unfold gameOverTick
  by_cases hd : w.gamestate.gameOverMusicDelay = 0 <;>
    simp only [hd, setMusic, if_true, if_false, ite_true, ite_false] <;> rfl

theorem gameOverTick_stored (w : World) :
    (gameOverTick w).storedHiScore = w.storedHiScore := by
  unfold gameOverTick
  by_cases hd : w.gamestate.gameOverMusicDelay = 0 <;>
    simp only [hd, setMusic, if_true, if_false, ite_true, ite_false] <;> rfl

/-- A tick spent in `PHASE_GAME_OVER` spawns nothing: per-kind counts of the
foreground collection are unchanged. -/
theorem gameOverTick_countKind (w : World) (k : SKind) :
    countKind (gameOverTick w).gamestate.sprites k
      = countKind w.gamestate.sprites k := by
  unfold gameOverTick
  by_cases hd : w.gamestate.gameOverMusicDelay = 0 <;>
    simp only [hd, if_true, if_false, ite_true, ite_false, setMusic] <;>
    exact renderPhase_countKind _ k

/-- Iterated game-over ticks preserve the high score, the persisted high
score, and all per-kind sprite counts. -/
theorem gameOverTick_iterate (n : Nat) :
    ∀ w : World,
      (gameOverTick^[n] w).hiScore = w.hiScore ∧
      (gameOverTick^[n] w).storedHiScore = w.storedHiScore ∧
      ∀ k, countKind (gameOverTick^[n] w).gamestate.sprites k
        = countKind w.gamestate.sprites k := by
  induction n with
  | zero => intro w; exact ⟨rfl, rfl, fun _ => rfl⟩
  | succ m ih =>
      intro w
      rw [Function.iterate_succ_apply]
      refine ⟨?_, ?_, ?_⟩
      · rw [(ih (gameOverTick w)).1, gameOverTick_hiScore]
      · rw [(ih (gameOverTick w)).2.1, gameOverTick_stored]
      · intro k
        rw [(ih (gameOverTick w)).2.2 k, gameOverTick_countKind]

/-- C4: when the game-over transition fires with the score strictly above
the stored high score, the in-memory and persisted high scores are updated
to the score and one "new high score" overlay (and one "game over" overlay)
is spawned; ticks spent in `PHASE_GAME_OVER` afterwards never repeat the
update or the overlay spawns. -/
theorem C4_gameover_highscore (w : World) (h : w.gamestate.score > w.hiScore) :
    (setGamePhase w Phase.PHASE_GAME_OVER).hiScore = w.gamestate.score ∧
    (setGamePhase w Phase.PHASE_GAME_OVER).storedHiScore = some w.gamestate.score ∧
    countKind (setGamePhase w Phase.PHASE_GAME_OVER).gamestate.sprites SKind.NewHiScore
      = countKind w.gamestate.sprites SKind.NewHiScore + 1 ∧
    countKind (setGamePhase w Phase.PHASE_GAME_OVER).gamestate.sprites SKind.GameOverMessage
      = countKind w.gamestate.sprites SKind.GameOverMessage + 1 ∧
    ∀ n : Nat,
      (gameOverTick^[n] (setGamePhase w Phase.PHASE_GAME_OVER)).hiScore
        = w.gamestate.score ∧
      (gameOverTick^[n] (setGamePhase w Phase.PHASE_GAME_OVER)).storedHiScore
        = some w.gamestate.score ∧
      countKind (gameOverTick^[n] (setGamePhase w Phase.PHASE_GAME_OVER)).gamestate.sprites
          SKind.NewHiScore
        = countKind w.gamestate.sprites SKind.NewHiScore + 1 ∧
      countKind (gameOverTick^[n] (setGamePhase w Phase.PHASE_GAME_OVER)).gamestate.sprites
          SKind.GameOverMessage
        = countKind w.gamestate.sprites SKind.GameOverMessage + 1 := by
  have h1 : (setGamePhase w Phase.PHASE_GAME_OVER).hiScore = w.gamestate.score := by
    simp [setGamePhase, silenceAllSprites, setMusic, allocId, World.pushSprite, h]
  have h2 : (setGamePhase w Phase.PHASE_GAME_OVER).storedHiScore
      = some w.gamestate.score := by
    simp [setGamePhase, silenceAllSprites, setMusic, allocId, World.pushSprite, h]
  have h3 : ∀ k, countKind (setGamePhase w Phase.PHASE_GAME_OVER).gamestate.sprites k
      = countKind w.gamestate.sprites k
        + countKind [mkGameOverMessage w.nextId, mkNewHiScore (w.nextId + 1)] k := by
    intro k
    have hsp : (setGamePhase w Phase.PHASE_GAME_OVER).gamestate.sprites
        = (w.gamestate.sprites.map Sprite.silenceSound)
          ++ [mkGameOverMessage w.nextId, mkNewHiScore (w.nextId + 1)] := by
      simp [setGamePhase, silenceAllSprites, setMusic, allocId, World.pushSprite, h]
    rw [hsp, countKind_append, countKind_silenceAll]
  have hNH : countKind [mkGameOverMessage w.nextId, mkNewHiScore (w.nextId + 1)]
      SKind.NewHiScore = 1 := rfl
  have hGO : countKind [mkGameOverMessage w.nextId, mkNewHiScore (w.nextId + 1)]
      SKind.GameOverMessage = 1 := rfl
  refine ⟨h1, h2, by rw [h3, hNH], by rw [h3, hGO], ?_⟩
  intro n
  obtain ⟨i1, i2, i3⟩ := gameOverTick_iterate n (setGamePhase w Phase.PHASE_GAME_OVER)
  exact ⟨by rw [i1, h1], by rw [i2, h2], by rw [i3, h3, hNH], by rw [i3, h3, hGO]⟩

/-- A world about to lose with a score above the stored high score. -/
def c4World : World :=
  { emptyWorld with gamestate := { INITIAL_GAMESTATE with score := 1234 } }

/-- Witness for C4 at a concrete world with score 1234 and high score 0. -/
theorem C4_witness :
    c4World.gamestate.score > c4World.hiScore ∧
    ((setGamePhase c4World Phase.PHASE_GAME_OVER).hiScore = c4World.gamestate.score ∧
     (setGamePhase c4World Phase.PHASE_GAME_OVER).storedHiScore
       = some c4World.gamestate.score ∧
     countKind (setGamePhase c4World Phase.PHASE_GAME_OVER).gamestate.sprites
         SKind.NewHiScore
       = countKind c4World.gamestate.sprites SKind.NewHiScore + 1 ∧
     countKind (setGamePhase c4World Phase.PHASE_GAME_OVER).gamestate.sprites
         SKind.GameOverMessage
       = countKind c4World.gamestate.sprites SKind.GameOverMessage + 1 ∧
     ∀ n : Nat,
       (gameOverTick^[n] (setGamePhase c4World Phase.PHASE_GAME_OVER)).hiScore
         = c4World.gamestate.score ∧
       (gameOverTick^[n] (setGamePhase c4World Phase.PHASE_GAME_OVER)).storedHiScore
         = some c4World.gamestate.score ∧
       countKind
           (gameOverTick^[n] (setGamePhase c4World Phase.PHASE_GAME_OVER)).gamestate.sprites
           SKind.NewHiScore
         = countKind c4World.gamestate.sprites SKind.NewHiScore + 1 ∧
       countKind
           (gameOverTick^[n] (setGamePhase c4World Phase.PHASE_GAME_OVER)).gamestate.sprites
           SKind.GameOverMessage
         = countKind c4World.gamestate.sprites SKind.GameOverMessage + 1) :=
  ⟨by decide, C4_gameover_highscore c4World (by decide)⟩

/-! ### Claim C6: visitation order and removal policy of the movement pass -/

theorem getColl_setSprite (w : World) (c : Coll) (i : Nat) (s : Sprite) :
    (w.setSprite c i s).getColl c = (w.getColl c).set i s := by
  cases c <;> rfl

theorem getColl_eraseSprite (w : World) (c : Coll) (i : Nat) :
    (w.eraseSprite c i).getColl c = (w.getColl c).eraseIdx i := by
  cases c <;> rfl

/-- `spendKnife` only touches the knife counter and the passed sprite value,
never the collections. -/
theorem getColl_spendKnife (w : World) (p : Sprite) (b : Bool) (c : Coll) :
    (spendKnife w p b).2.2.getColl c = w.getColl c := by
  unfold spendKnife
  split <;> cases c <;> rfl

theorem spendKnife_sprite_kind (w : World) (p : Sprite) (b : Bool) :
    (spendKnife w p b).2.1.kind = p.kind := by
  unfold spendKnife
  dsimp only
  split
  · split <;> rfl
  · split <;> rfl

theorem dirMove_kind (inp : Inputs) (s : Sprite) : (dirMove inp s).kind = s.kind := by
  unfold dirMove
  dsimp only
  repeat' split
  all_goals rfl

theorem ensureFullyOnScreen_kind (s : Sprite) :
    s.ensureFullyOnScreen.kind = s.kind := by
  unfold Sprite.ensureFullyOnScreen
  dsimp only
  repeat' split
  all_goals rfl

/-- Shape of the collection after one `move()` call at index `i`: the
original collection with slot `i` overwritten by the moved sprite (same
kind, readable back at `i`), followed only by knives pushed during the
call. -/
def MoveShape (l0 : List Sprite) (i : Nat) (k0 : SKind) (l : List Sprite) : Prop :=
  ∃ s' app, l = l0.set i s' ++ app ∧ s'.kind = k0 ∧ l[i]? = some s' ∧
    ∀ a ∈ app, a.kind = SKind.Knife

theorem moveShape_set (l0 : List Sprite) (i : Nat) (a : Sprite) (k0 : SKind)
    (hi : i < l0.length) (ha : a.kind = k0) :
    MoveShape l0 i k0 (l0.set i a) :=
  ⟨a, [], (List.append_nil _).symm, ha,
   List.getElem?_set_self (by simpa using hi),
   fun _ hmem => absurd hmem (List.not_mem_nil _)⟩

theorem MoveShape.push {l0 : List Sprite} {i : Nat} {k0 : SKind} {l : List Sprite}
    (h : MoveShape l0 i k0 l) (k : Sprite) (hk : k.kind = SKind.Knife) :
    MoveShape l0 i k0 (l ++ [k]) := by
  obtain ⟨s', app, rfl, hkind, hget, happ⟩ := h
  have hlt : i < (l0.set i s' ++ app).length := by
    rcases List.getElem?_eq_some.mp hget with ⟨hl, _⟩
    exact hl
  refine ⟨s', app ++ [k], by rw [List.append_assoc], hkind, ?_, ?_⟩
  · rw [List.getElem?_append_left hlt]
    exact hget
  · intro a ha
    rcases List.mem_append.mp ha with ha | ha
    · exact happ a ha
    · rw [List.mem_singleton.mp ha]; exact hk

/-- The kind of the pushed thrown knife. -/
theorem thrownKnife_kind (kid : Nat) (r : ℚ) (x y : ℚ) :
    ({ mkKnife kid KState.STATE_THROWN r with x := x, y := y } : Sprite).kind
      = SKind.Knife := rfl

/-- Consuming the random oracle and the identity allocator before a push
does not affect what the push does to the foreground collection. -/
theorem getColl_fg_push_variant (w : World) (n m : Nat) (k : Sprite) :
    (({ w with rngIdx := n, nextId := m } : World).pushSprite k).getColl Coll.fg
      = w.getColl Coll.fg ++ [k] := rfl

theorem getColl_bg_push_variant (w : World) (n m : Nat) (k : Sprite) :
    (({ w with rngIdx := n, nextId := m } : World).pushSprite k).getColl Coll.bg
      = w.getColl Coll.bg := rfl

/-- `playerMove` realizes the move-shape invariant: the player's slot is
overwritten (same kind) and at most one thrown knife is appended. -/
theorem playerMove_shape (w : World) (c : Coll) (i : Nat) (s0 : Sprite)
    (hi : i < (w.getColl c).length) :
    MoveShape (w.getColl c) i s0.kind ((playerMove w c i s0).getColl c) := by
  unfold playerMove
  by_cases hf : w.gamestate.inputs.fire = true ∧ w.gamestate.knifeThrowCooldown = 0
  · rw [if_pos hf]
    rcases hsk : spendKnife
        { w with gamestate :=
            { w.gamestate with knifeThrowCooldown := KNIFE_COOLDOWN_FRAMES } }
        (dirMove w.gamestate.inputs s0) true with ⟨spent, s2, w2⟩
    have hw2 : w2.getColl c = w.getColl c := by
      have h1 := getColl_spendKnife
        { w with gamestate :=
            { w.gamestate with knifeThrowCooldown := KNIFE_COOLDOWN_FRAMES } }
        (dirMove w.gamestate.inputs s0) true c
      rw [hsk] at h1
      have h2 : ({ w with gamestate :=
          { w.gamestate with knifeThrowCooldown := KNIFE_COOLDOWN_FRAMES } }
            : World).getColl c = w.getColl c := by
        cases c <;> rfl
      rw [h1, h2]
    have hs2k : s2.kind = s0.kind := by
      have h1 := spendKnife_sprite_kind
        { w with gamestate :=
            { w.gamestate with knifeThrowCooldown := KNIFE_COOLDOWN_FRAMES } }
        (dirMove w.gamestate.inputs s0) true
      rw [hsk] at h1
      simpa [dirMove_kind] using h1
    have hshape : MoveShape (w.getColl c) i s0.kind
        ((w2.setSprite c i s2.ensureFullyOnScreen).getColl c) := by
      rw [getColl_setSprite, hw2]
      exact moveShape_set _ _ _ _ hi (by rw [ensureFullyOnScreen_kind, hs2k])
    simp only [hsk]
    cases spent
    · simpa using hshape
    · simp only [if_true, ite_true, nextRand, allocId]
      cases c
      · rw [getColl_fg_push_variant]
        exact hshape.push _ rfl
      · rw [getColl_bg_push_variant]
        exact hshape
  · rw [if_neg hf, getColl_setSprite]
    exact moveShape_set _ _ _ _ hi (by rw [ensureFullyOnScreen_kind, dirMove_kind])

/-- Overwriting a slot with the element already there is the identity. -/
theorem set_getElem?_self (l : List Sprite) (i : Nat) (a : Sprite)
    (h : l[i]? = some a) : l.set i a = l := by
  have hi : i < l.length := (List.getElem?_eq_some.mp h).1
  have ha : l[i] = a := by
    have h2 := List.getElem?_eq_getElem hi
    rw [h] at h2
    exact (Option.some_inj.mp h2).symm
  rw [← ha]
  apply List.ext_getElem?
  intro n
  rw [List.getElem?_set]
  split
  · next heq => subst heq; rw [List.getElem?_eq_getElem hi]
  · rfl

/-- One `move()` call at index `i` leaves the collection in move-shape:
slot `i` overwritten by the moved sprite (same kind), plus possibly pushed
knives at the end. -/
theorem moveSpriteAt_shape (w : World) (c : Coll) (i : Nat) (s0 : Sprite)
    (hs0 : (w.getColl c)[i]? = some s0) :
    MoveShape (w.getColl c) i s0.kind ((moveSpriteAt w c i).getColl c) := by
  have hi : i < (w.getColl c).length := (List.getElem?_eq_some.mp hs0).1
  have hnoop : MoveShape (w.getColl c) i s0.kind (w.getColl c) :=
    ⟨s0, [], by rw [List.append_nil, set_getElem?_self _ _ _ hs0], rfl, hs0,
     fun _ hmem => absurd hmem (List.not_mem_nil _)⟩
  unfold moveSpriteAt
  rw [hs0]
  obtain ⟨sid, skind, sx, sy, sfh, siw, sanims, sanim, saf, safs, srdy, sfrm,
          shb, ssnd, sdd, sspd, sst, svel⟩ := s0
  cases skind
  case Player => exact playerMove_shape w c i _ hi
  case Lamb =>
      dsimp only
      rw [getColl_setSprite]
      exact moveShape_set _ _ _ _ hi rfl
  case Broccoli =>
      dsimp only
      rw [getColl_setSprite]
      exact moveShape_set _ _ _ _ hi rfl
  case Onion =>
      dsimp only
      rw [getColl_setSprite]
      exact moveShape_set _ _ _ _ hi rfl
  case Knife =>
      cases sst <;> dsimp only <;> rw [getColl_setSprite] <;>
        exact moveShape_set _ _ _ _ hi rfl
  case RoadLine =>
      dsimp only
      rw [getColl_setSprite]
      exact moveShape_set _ _ _ _ hi rfl
  case Sidewalk =>
      dsimp only
      rw [getColl_setSprite]
      exact moveShape_set _ _ _ _ hi rfl
  case TitleScreen => exact hnoop
  case ClickToStart => exact hnoop
  case Credits => exact hnoop
  case GameOverMessage => exact hnoop
  case NewHiScore => exact hnoop

/-- The survivors a visit trace predicts, in insertion order. -/
def keptOf (vs : List Visit) : List Sprite :=
  ((vs.filter (fun v => !v.fin)).map Visit.after).reverse

theorem keptOf_cons (v : Visit) (vs : List Visit) :
    keptOf (v :: vs) = keptOf vs ++ (if v.fin then [] else [v.after]) := by
  unfold keptOf
  cases hf : v.fin <;> simp [List.filter_cons, hf]

/-- Unfolding one iteration of the movement loop when the moved sprite is
readable back at its index. -/
theorem moveLoop_succ_of_get (c : Coll) (w : World) (n : Nat) (s' : Sprite)
    (hget : ((moveSpriteAt w c n).getColl c)[n]? = some s') :
    moveLoop c w (n + 1)
      = ((moveLoop c (if s'.finished = true then (moveSpriteAt w c n).eraseSprite c n
                      else moveSpriteAt w c n) n).1,
         ⟨s'.kind, s', s'.finished⟩
           :: (moveLoop c (if s'.finished = true then (moveSpriteAt w c n).eraseSprite c n
                           else moveSpriteAt w c n) n).2) := by
  simp only [moveLoop, hget]

/-- The movement/pruning loop, specified: processing indices `i-1 .. 0`
visits exactly the first `i` entities, last to first, and keeps each one
exactly when `finished()` is false right after its move, with only pushed
knives appearing beyond the processed region. -/
theorem moveLoop_spec (c : Coll) :
    ∀ (i : Nat) (w : World), i ≤ (w.getColl c).length →
      ((moveLoop c w i).2.map Visit.k
          = (((w.getColl c).take i).map Sprite.kind).reverse) ∧
      ∃ app, (moveLoop c w i).1.getColl c
          = keptOf (moveLoop c w i).2 ++ ((w.getColl c).drop i ++ app) ∧
        ∀ a ∈ app, a.kind = SKind.Knife := by
  intro i
  induction i with
  | zero =>
      intro w _
      refine ⟨by simp [moveLoop], [], ?_, by simp⟩
      simp [moveLoop, keptOf]
  | succ n ih =>
      intro w hi
      have hn : n < (w.getColl c).length := by omega
      have hs0 : (w.getColl c)[n]? = some (w.getColl c)[n] :=
        List.getElem?_eq_getElem hn
      obtain ⟨s', app0, hL, hkind, hget, happ0⟩ :=
        moveSpriteAt_shape w c n (w.getColl c)[n] hs0
      have hA : ((w.getColl c).take n).length = n := List.length_take_of_le (by omega)
      have hsplit : (w.getColl c).set n s'
          = (w.getColl c).take n ++ s' :: (w.getColl c).drop (n + 1) :=
        List.set_eq_take_cons_drop s' hn
      have htake : ∀ X : List Sprite,
          ((w.getColl c).take n ++ X).take n = (w.getColl c).take n :=
        fun X => List.take_left' hA
      have hdrop : ∀ X : List Sprite,
          ((w.getColl c).take n ++ X).drop n = X :=
        fun X => List.drop_left' hA
      have htakekinds :
          (((w.getColl c).take (n + 1)).map Sprite.kind).reverse
            = (w.getColl c)[n].kind
              :: (((w.getColl c).take n).map Sprite.kind).reverse := by
        rw [List.take_succ, List.getElem?_eq_getElem hn, List.map_append,
            List.reverse_append]
        rfl
      rw [moveLoop_succ_of_get c w n s' hget]
      cases hfin : s'.finished
      · -- not finished: the moved sprite stays in its slot
        simp only [hfin, Bool.false_eq_true, if_false, ite_false]
        have hw2 : (moveSpriteAt w c n).getColl c
            = (w.getColl c).take n
              ++ (s' :: ((w.getColl c).drop (n + 1) ++ app0)) := by
          rw [hL, hsplit]
          simp [List.append_assoc]
        obtain ⟨ih1, app1, ih2, happ1⟩ :=
          ih (moveSpriteAt w c n) (by rw [hw2]; simp [List.length_append, hA])
        refine ⟨?_, app0 ++ app1, ?_, ?_⟩
        · simp only [List.map_cons, ih1, hw2, htake, htakekinds, hkind]
        · rw [ih2, hw2, hdrop, keptOf_cons]
          simp only [hfin, Bool.false_eq_true, if_false, ite_false]
          simp [List.append_assoc]
        · intro a ha
          rcases List.mem_append.mp ha with ha | ha
          · exact happ0 a ha
          · exact happ1 a ha
      · -- finished: the moved sprite is spliced out
        simp only [hfin, if_true, ite_true]
        have hw2 : ((moveSpriteAt w c n).eraseSprite c n).getColl c
            = (w.getColl c).take n
              ++ ((w.getColl c).drop (n + 1) ++ app0) := by
          rw [getColl_eraseSprite, hL, hsplit]
          rw [List.eraseIdx_append_of_lt_length (by simp [List.length_append]; omega)]
          have hdropn1 : ∀ (t : Sprite) (X : List Sprite),
              ((w.getColl c).take n ++ t :: X).drop (n + 1) = X := by
            intro t X
            have hd := @List.drop_append Sprite ((w.getColl c).take n) (t :: X) 1
            rw [hA] at hd
            simpa using hd
          have hinner : ((w.getColl c).take n
              ++ s' :: (w.getColl c).drop (n + 1)).eraseIdx n
                = (w.getColl c).take n ++ (w.getColl c).drop (n + 1) := by
            rw [List.eraseIdx_eq_take_drop_succ]
            rw [htake, hdropn1]
          rw [hinner, List.append_assoc]
        obtain ⟨ih1, app1, ih2, happ1⟩ :=
          ih ((moveSpriteAt w c n).eraseSprite c n)
            (by rw [hw2]; simp [List.length_append, hA])
        refine ⟨?_, app0 ++ app1, ?_, ?_⟩
        · simp only [List.map_cons, ih1, hw2, htake, htakekinds, hkind]
        · rw [ih2, hw2, hdrop, keptOf_cons]
          simp only [hfin, if_true, ite_true]
          simp [List.append_assoc]
        · intro a ha
          rcases List.mem_append.mp ha with ha | ha
          · exact happ0 a ha
          · exact happ1 a ha

/-- C6 (amended): the per-tick movement/pruning pass visits the foreground
entities present at pass start exactly once each, in REVERSE insertion order
(the source iterates from the last index down to 0, which is what makes
index-based removal safe — not insertion order as claimed); each visited
entity has `move()` called exactly once, and the resulting collection is
exactly the moved entities whose `finished()` was false right after their
move, in insertion order, followed only by knives spawned into the
collection during the pass (a firing player pushes its thrown knife). -/
theorem C6_move_pass_amended (w : World) :
    ((movePassVisits Coll.fg w).map Visit.k
        = (w.gamestate.sprites.map Sprite.kind).reverse) ∧
    ∃ app, (movePass Coll.fg w).gamestate.sprites
        = keptOf (movePassVisits Coll.fg w) ++ app ∧
      ∀ a ∈ app, a.kind = SKind.Knife := by
  obtain ⟨h1, app, h2, h3⟩ :=
    moveLoop_spec Coll.fg (w.getColl Coll.fg).length w le_rfl
  refine ⟨?_, app, ?_, h3⟩
  · rw [List.take_length] at h1
    exact h1
  · rw [List.drop_length] at h2
    exact h2

/-- A living lamb parked mid-playfield. -/
def c6Lamb : Sprite := { mkLamb 20 0 with x := 250, y := 100 }

/-- A broccoli parked mid-playfield, inserted after the lamb. -/
def c6Broccoli : Sprite := { mkBroccoli 21 0 with x := 250, y := 200 }

def c6World : World :=
  { emptyWorld with gamestate :=
      { INITIAL_GAMESTATE with sprites := [c6Lamb, c6Broccoli] } }

/-- C6 counterexample: with the foreground collection holding a lamb then a
broccoli (insertion order), the movement pass visits the broccoli first —
the visitation order is the REVERSE of insertion order, refuting the claim
as stated. -/
theorem C6_counterexample :
    c6World.gamestate.sprites.map Sprite.kind = [SKind.Lamb, SKind.Broccoli] ∧
    (movePassVisits Coll.fg c6World).map Visit.k = [SKind.Broccoli, SKind.Lamb] ∧
    (movePassVisits Coll.fg c6World).map Visit.k
      ≠ c6World.gamestate.sprites.map Sprite.kind := by
  have h1 : c6World.gamestate.sprites.map Sprite.kind
      = [SKind.Lamb, SKind.Broccoli] := rfl
  have h2 := (moveLoop_spec Coll.fg (c6World.getColl Coll.fg).length c6World le_rfl).1
  rw [List.take_length] at h2
  have h3 : (movePassVisits Coll.fg c6World).map Visit.k
      = [SKind.Broccoli, SKind.Lamb] := by
    rw [movePassVisits, h2]
    rfl
  refine ⟨h1, h3, ?_⟩
  rw [h1, h3]
  intro hcon
  cases hcon

/-! ### Claims C9 and C10: score monotonicity and knife-count non-negativity

These quantify over every operation the simulation performs within a run, so
we prove that each building block preserves the relevant counter fact and
compose up to the full per-tick functions. -/

theorem score_setSprite (w : World) (c : Coll) (i : Nat) (s : Sprite) :
    (w.setSprite c i s).gamestate.score = w.gamestate.score := by
  cases c <;> rfl

theorem knives_setSprite (w : World) (c : Coll) (i : Nat) (s : Sprite) :
    (w.setSprite c i s).gamestate.knives = w.gamestate.knives := by
  cases c <;> rfl

theorem score_modifySprite (w : World) (c : Coll) (i : Nat) (f : Sprite → Sprite) :
    (w.modifySprite c i f).gamestate.score = w.gamestate.score := by
  unfold World.modifySprite
  split
  · exact score_setSprite ..
  · rfl

theorem knives_modifySprite (w : World) (c : Coll) (i : Nat) (f : Sprite → Sprite) :
    (w.modifySprite c i f).gamestate.knives = w.gamestate.knives := by
  unfold World.modifySprite
  split
  · exact knives_setSprite ..
  · rfl

theorem score_eraseSprite (w : World) (c : Coll) (i : Nat) :
    (w.eraseSprite c i).gamestate.score = w.gamestate.score := by
  cases c <;> rfl

theorem knives_eraseSprite (w : World) (c : Coll) (i : Nat) :
    (w.eraseSprite c i).gamestate.knives = w.gamestate.knives := by
  cases c <;> rfl

theorem spendKnife_score (w : World) (p : Sprite) (b : Bool) :
    (spendKnife w p b).2.2.gamestate.score = w.gamestate.score := by
  unfold spendKnife
  dsimp only
  split <;> rfl

theorem spendKnife_knives_nonneg (w : World) (p : Sprite) (b : Bool)
    (h : 0 ≤ w.gamestate.knives) :
    0 ≤ (spendKnife w p b).2.2.gamestate.knives := by
  unfold spendKnife
  dsimp only
  split
  · exact h
  · next hne => dsimp only; omega

theorem playerMove_score (w : World) (c : Coll) (i : Nat) (s0 : Sprite) :
    (playerMove w c i s0).gamestate.score = w.gamestate.score := by
  unfold playerMove
  dsimp only
  split
  · rcases hsk : spendKnife
        { w with gamestate :=
            { w.gamestate with knifeThrowCooldown := KNIFE_COOLDOWN_FRAMES } }
        (dirMove w.gamestate.inputs s0) true with ⟨spent, s2, w2⟩
    have hw2 : w2.gamestate.score = w.gamestate.score := by
      have h1 := spendKnife_score
        { w with gamestate :=
            { w.gamestate with knifeThrowCooldown := KNIFE_COOLDOWN_FRAMES } }
        (dirMove w.gamestate.inputs s0) true
      rw [hsk] at h1
      exact h1
    simp only [hsk]
    cases spent
    · rw [if_neg (by simp), score_setSprite]
      exact hw2
    · rw [if_pos rfl]
      rw [show ∀ (v : World) (k : Sprite), (v.pushSprite k).gamestate.score
            = v.gamestate.score from fun _ _ => rfl]
      dsimp only [nextRand, allocId]
      rw [score_setSprite]
      exact hw2
  · rw [score_setSprite]

theorem playerMove_knives_nonneg (w : World) (c : Coll) (i : Nat) (s0 : Sprite)
    (h : 0 ≤ w.gamestate.knives) :
    0 ≤ (playerMove w c i s0).gamestate.knives := by
  unfold playerMove
  dsimp only
  split
  · rcases hsk : spendKnife
        { w with gamestate :=
            { w.gamestate with knifeThrowCooldown := KNIFE_COOLDOWN_FRAMES } }
        (dirMove w.gamestate.inputs s0) true with ⟨spent, s2, w2⟩
    have hw2 : 0 ≤ w2.gamestate.knives := by
      have h1 := spendKnife_knives_nonneg
        { w with gamestate :=
            { w.gamestate with knifeThrowCooldown := KNIFE_COOLDOWN_FRAMES } }
        (dirMove w.gamestate.inputs s0) true h
      rw [hsk] at h1
      exact h1
    simp only [hsk]
    cases spent
    · rw [if_neg (by simp), knives_setSprite]
      exact hw2
    · rw [if_pos rfl]
      rw [show ∀ (v : World) (k : Sprite), (v.pushSprite k).gamestate.knives
            = v.gamestate.knives from fun _ _ => rfl]
      dsimp only [nextRand, allocId]
      rw [knives_setSprite]
      exact hw2
  · rw [knives_setSprite]
    exact h

theorem moveSpriteAt_score (w : World) (c : Coll) (i : Nat) :
    (moveSpriteAt w c i).gamestate.score = w.gamestate.score := by
  unfold moveSpriteAt
  split
  · rfl
  · split
    case _ s _ => exact playerMove_score ..
    all_goals first
      | exact score_setSprite ..
      | rfl
      | (split <;> exact score_setSprite ..)

theorem moveSpriteAt_knives_nonneg (w : World) (c : Coll) (i : Nat)
    (h : 0 ≤ w.gamestate.knives) :
    0 ≤ (moveSpriteAt w c i).gamestate.knives := by
  unfold moveSpriteAt
  split
  · exact h
  · split
    case _ s _ => exact playerMove_knives_nonneg _ _ _ _ h
    all_goals first
      | (rw [knives_setSprite]; exact h)
      | exact h
      | (split <;> (rw [knives_setSprite]; exact h))

theorem moveLoop_score (c : Coll) :
    ∀ (i : Nat) (w : World),
      (moveLoop c w i).1.gamestate.score = w.gamestate.score := by
  intro i
  induction i with
  | zero => intro w; rfl
  | succ n ih =>
      intro w
      unfold moveLoop
      dsimp only
      split
      · rw [ih, moveSpriteAt_score]
      · dsimp only
        split
        · rw [ih, score_eraseSprite, moveSpriteAt_score]
        · rw [ih, moveSpriteAt_score]

theorem moveLoop_knives_nonneg (c : Coll) :
    ∀ (i : Nat) (w : World), 0 ≤ w.gamestate.knives →
      0 ≤ (moveLoop c w i).1.gamestate.knives := by
  intro i
  induction i with
  | zero => intro w h; exact h
  | succ n ih =>
      intro w h
      unfold moveLoop
      dsimp only
      split
      · exact ih _ (moveSpriteAt_knives_nonneg _ _ _ h)
      · dsimp only
        split
        · refine ih _ ?_
          rw [knives_eraseSprite]
          exact moveSpriteAt_knives_nonneg _ _ _ h
        · exact ih _ (moveSpriteAt_knives_nonneg _ _ _ h)

theorem movePass_score (c : Coll) (w : World) :
    (movePass c w).gamestate.score = w.gamestate.score :=
  moveLoop_score c _ w

theorem movePass_knives_nonneg (c : Coll) (w : World)
    (h : 0 ≤ w.gamestate.knives) : 0 ≤ (movePass c w).gamestate.knives :=
  moveLoop_knives_nonneg c _ w h

theorem setGamePhase_gameover_score (w : World) :
    (setGamePhase w Phase.PHASE_GAME_OVER).gamestate.score = w.gamestate.score := by
  unfold setGamePhase silenceAllSprites setMusic allocId World.pushSprite
  dsimp only
  split <;> rfl

theorem setGamePhase_gameover_knives (w : World) :
    (setGamePhase w Phase.PHASE_GAME_OVER).gamestate.knives = w.gamestate.knives := by
  unfold setGamePhase silenceAllSprites setMusic allocId World.pushSprite
  dsimp only
  split <;> rfl

theorem setGamePhase_attract_score (w : World) :
    (setGamePhase w Phase.PHASE_ATTRACT).gamestate.score = w.gamestate.score := rfl

theorem setGamePhase_attract_knives (w : World) :
    (setGamePhase w Phase.PHASE_ATTRACT).gamestate.knives = w.gamestate.knives := rfl

theorem playerDie_score (w : World) (i : Nat) :
    (playerDie w i).gamestate.score = w.gamestate.score := by
  unfold playerDie
  rw [setGamePhase_gameover_score, score_modifySprite]

theorem playerDie_knives (w : World) (i : Nat) :
    (playerDie w i).gamestate.knives = w.gamestate.knives := by
  unfold playerDie
  rw [setGamePhase_gameover_knives, knives_modifySprite]

theorem lambDie_score (w : World) (j : Nat) :
    (lambDie w j).gamestate.score = w.gamestate.score := by
  unfold lambDie
  exact score_modifySprite ..

theorem lambDie_knives (w : World) (j : Nat) :
    (lambDie w j).gamestate.knives = w.gamestate.knives := by
  unfold lambDie
  exact knives_modifySprite ..

theorem playerInteract_score_le (w : World) (i j : Nat) (s1 s2 : Sprite) :
    w.gamestate.score ≤ (playerInteract w i j s1 s2).gamestate.score := by
  unfold playerInteract
  cases s2.kind
  case Broccoli =>
      dsimp only
      split
      · rw [playerDie_score]
      · exact le_refl _
  case Onion =>
      dsimp only
      split
      · rw [playerDie_score]
      · exact le_refl _
  case Lamb =>
      dsimp only
      split
      · split
        · exact le_refl _
        · rcases hsk : spendKnife w s1 false with ⟨spent, p', w'⟩
          have hw' : w'.gamestate.score = w.gamestate.score := by
            have h1 := spendKnife_score w s1 false
            rw [hsk] at h1
            exact h1
          simp only [hsk]
          cases spent
          · rw [if_neg (by simp), hw']
          · rw [if_pos rfl]
            dsimp only
            rw [lambDie_score, score_setSprite, hw']
            omega
      · exact le_refl _
  case Knife =>
      dsimp only
      split
      · split
        · rw [score_modifySprite]
          dsimp only
          split
          · rw [score_modifySprite]
            dsimp only
            omega
          · dsimp only
            omega
        · rw [playerDie_score]
      · exact le_refl _
  all_goals exact le_refl _

theorem playerInteract_knives_nonneg (w : World) (i j : Nat) (s1 s2 : Sprite)
    (h : 0 ≤ w.gamestate.knives) :
    0 ≤ (playerInteract w i j s1 s2).gamestate.knives := by
  unfold playerInteract
  cases s2.kind
  case Broccoli =>
      dsimp only
      split
      · rw [playerDie_knives]; exact h
      · exact h
  case Onion =>
      dsimp only
      split
      · rw [playerDie_knives]; exact h
      · exact h
  case Lamb =>
      dsimp only
      split
      · split
        · exact h
        · rcases hsk : spendKnife w s1 false with ⟨spent, p', w'⟩
          have hw' : 0 ≤ w'.gamestate.knives := by
            have h1 := spendKnife_knives_nonneg w s1 false h
            rw [hsk] at h1
            exact h1
          simp only [hsk]
          cases spent
          · rw [if_neg (by simp)]
            exact hw'
          · rw [if_pos rfl]
            dsimp only
            rw [lambDie_knives, knives_setSprite]
            exact hw'
      · exact h
  case Knife =>
      dsimp only
      split
      · split
        · rw [knives_modifySprite]
          dsimp only
          split
          · rw [knives_modifySprite]
            dsimp only
            omega
          · dsimp only
            omega
        · rw [playerDie_knives]; exact h
      · exact h
  all_goals exact h

theorem knifeInteract_score_le (w : World) (i j : Nat) (s1 s2 : Sprite) :
    w.gamestate.score ≤ (knifeInteract w i j s1 s2).gamestate.score := by
  unfold knifeInteract
  split
  · exact le_refl _
  · cases s2.kind
    case Broccoli =>
        dsimp only
        split
        · rw [score_modifySprite]
        · exact le_refl _
    case Onion =>
        dsimp only
        split
        · rw [score_modifySprite]
        · exact le_refl _
    case Lamb =>
        dsimp only
        split
        · split
          · exact le_refl _
          · dsimp only [nextRand]
            rw [score_modifySprite]
            dsimp only
            rw [lambDie_score]
            omega
        · exact le_refl _
    all_goals exact le_refl _

theorem knifeInteract_knives_nonneg (w : World) (i j : Nat) (s1 s2 : Sprite)
    (h : 0 ≤ w.gamestate.knives) :
    0 ≤ (knifeInteract w i j s1 s2).gamestate.knives := by
  unfold knifeInteract
  split
  · exact h
  · cases s2.kind
    case Broccoli =>
        dsimp only
        split
        · rw [knives_modifySprite]; exact h
        · exact h
    case Onion =>
        dsimp only
        split
        · rw [knives_modifySprite]; exact h
        · exact h
    case Lamb =>
        dsimp only
        split
        · split
          · exact h
          · dsimp only [nextRand]
            rw [knives_modifySprite]
            dsimp only
            rw [lambDie_knives]
            exact h
        · exact h
    all_goals exact h

theorem interactStep_score_le (w : World) (i j : Nat) :
    w.gamestate.score ≤ (interactStep w i j).gamestate.score := by
  unfold interactStep
  split
  · split
    all_goals first
      | exact playerInteract_score_le ..
      | exact knifeInteract_score_le ..
      | exact le_refl _
  · exact le_refl _

theorem interactStep_knives_nonneg (w : World) (i j : Nat)
    (h : 0 ≤ w.gamestate.knives) :
    0 ≤ (interactStep w i j).gamestate.knives := by
  unfold interactStep
  split
  · split
    all_goals first
      | exact playerInteract_knives_nonneg _ _ _ _ _ h
      | exact knifeInteract_knives_nonneg _ _ _ _ _ h
      | exact h
  · exact h

theorem innerScan_score_le (fuel : Nat) :
    ∀ (w : World) (i j : Nat),
      w.gamestate.score ≤ (innerScan fuel w i j).gamestate.score := by
  induction fuel with
  | zero => intro w i j; exact le_refl _
  | succ n ih =>
      intro w i j
      unfold innerScan
      split
      · exact le_trans (interactStep_score_le w i j) (ih _ _ _)
      · exact le_refl _

theorem innerScan_knives_nonneg (fuel : Nat) :
    ∀ (w : World) (i j : Nat), 0 ≤ w.gamestate.knives →
      0 ≤ (innerScan fuel w i j).gamestate.knives := by
  induction fuel with
  | zero => intro w i j h; exact h
  | succ n ih =>
      intro w i j h
      unfold innerScan
      split
      · exact ih _ _ _ (interactStep_knives_nonneg w i j h)
      · exact h

theorem interactLoop_score_le :
    ∀ (i : Nat) (w : World),
      w.gamestate.score ≤ (interactLoop w i).gamestate.score := by
  intro i
  induction i with
  | zero => intro w; exact le_refl _
  | succ n ih =>
      intro w
      unfold interactLoop
      dsimp only
      split
      · split
        · refine le_trans ?_ (ih _)
          rw [score_eraseSprite]
          exact innerScan_score_le _ w n 0
        · exact le_trans (innerScan_score_le _ w n 0) (ih _)
      · exact le_trans (innerScan_score_le _ w n 0) (ih _)

theorem interactLoop_knives_nonneg :
    ∀ (i : Nat) (w : World), 0 ≤ w.gamestate.knives →
      0 ≤ (interactLoop w i).gamestate.knives := by
  intro i
  induction i with
  | zero => intro w h; exact h
  | succ n ih =>
      intro w h
      unfold interactLoop
      dsimp only
      split
      · split
        · refine ih _ ?_
          rw [knives_eraseSprite]
          exact innerScan_knives_nonneg _ w n 0 h
        · exact ih _ (innerScan_knives_nonneg _ w n 0 h)
      · exact ih _ (innerScan_knives_nonneg _ w n 0 h)

theorem interactPass_score_le (w : World) :
    w.gamestate.score ≤ (interactPass w).gamestate.score :=
  interactLoop_score_le _ w

theorem interactPass_knives_nonneg (w : World) (h : 0 ≤ w.gamestate.knives) :
    0 ≤ (interactPass w).gamestate.knives :=
  interactLoop_knives_nonneg _ w h

theorem renderPhase_score (w : World) :
    (renderPhase w).gamestate.score = w.gamestate.score := rfl

theorem renderPhase_knives (w : World) :
    (renderPhase w).gamestate.knives = w.gamestate.knives := rfl

theorem gameOverTick_score (w : World) :
    (gameOverTick w).gamestate.score = w.gamestate.score := by
  unfold gameOverTick
  by_cases hd : w.gamestate.gameOverMusicDelay = 0 <;>
    simp only [hd, setMusic, if_true, if_false, ite_true, ite_false] <;> rfl

theorem gameOverTick_knives (w : World) :
    (gameOverTick w).gamestate.knives = w.gamestate.knives := by
  unfold gameOverTick
  by_cases hd : w.gamestate.gameOverMusicDelay = 0 <;>
    simp only [hd, setMusic, if_true, if_false, ite_true, ite_false] <;> rfl

theorem attractTick_score (w : World) :
    (attractTick w).gamestate.score = w.gamestate.score := rfl

theorem attractTick_knives (w : World) :
    (attractTick w).gamestate.knives = w.gamestate.knives := rfl

theorem spawnLamb_score (w : World) :
    (spawnLamb w).gamestate.score = w.gamestate.score := by
  unfold spawnLamb
  dsimp only
  repeat' split
  all_goals rfl

theorem spawnLamb_knives (w : World) :
    (spawnLamb w).gamestate.knives = w.gamestate.knives := by
  unfold spawnLamb
  dsimp only
  repeat' split
  all_goals rfl

theorem spawnBroccoli_score (w : World) :
    (spawnBroccoli w).gamestate.score = w.gamestate.score := by
  unfold spawnBroccoli
  dsimp only
  repeat' split
  all_goals rfl

theorem spawnBroccoli_knives (w : World) :
    (spawnBroccoli w).gamestate.knives = w.gamestate.knives := by
  unfold spawnBroccoli
  dsimp only
  repeat' split
  all_goals rfl

theorem spawnRoadLines_score (w : World) :
    (spawnRoadLines w).gamestate.score = w.gamestate.score := by
  unfold spawnRoadLines ROAD_LINE_YS
  dsimp only
  repeat' split
  all_goals rfl

theorem spawnRoadLines_knives (w : World) :
    (spawnRoadLines w).gamestate.knives = w.gamestate.knives := by
  unfold spawnRoadLines ROAD_LINE_YS
  dsimp only
  repeat' split
  all_goals rfl

theorem spawnSidewalk_score (w : World) :
    (spawnSidewalk w).gamestate.score = w.gamestate.score := by
  unfold spawnSidewalk
  dsimp only
  repeat' split
  all_goals rfl

theorem spawnSidewalk_knives (w : World) :
    (spawnSidewalk w).gamestate.knives = w.gamestate.knives := by
  unfold spawnSidewalk
  dsimp only
  repeat' split
  all_goals rfl

theorem spawnOnion_score (w : World) :
    (spawnOnion w).gamestate.score = w.gamestate.score := by
  unfold spawnOnion
  dsimp only
  repeat' split
  all_goals rfl

theorem spawnOnion_knives (w : World) :
    (spawnOnion w).gamestate.knives = w.gamestate.knives := by
  unfold spawnOnion
  dsimp only
  repeat' split
  all_goals rfl

theorem spawnKnife_score (w : World) :
    (spawnKnife w).gamestate.score = w.gamestate.score := by
  unfold spawnKnife
  dsimp only
  repeat' split
  all_goals rfl

theorem spawnKnife_knives (w : World) :
    (spawnKnife w).gamestate.knives = w.gamestate.knives := by
  unfold spawnKnife
  dsimp only
  repeat' split
  all_goals rfl

/-- A full running-phase tick never decreases the score. -/
theorem runningTick_score_le (w : World) :
    w.gamestate.score ≤ (runningTick w).gamestate.score := by
  unfold runningTick
  dsimp only
  rw [renderPhase_score]
  refine le_trans ?_ (interactPass_score_le _)
  rw [movePass_score, movePass_score]
  dsimp only
  rw [spawnKnife_score, spawnOnion_score, spawnSidewalk_score,
      spawnRoadLines_score, spawnBroccoli_score, spawnLamb_score]

/-- A full running-phase tick keeps the knife count non-negative. -/
theorem runningTick_knives_nonneg (w : World) (h : 0 ≤ w.gamestate.knives) :
    0 ≤ (runningTick w).gamestate.knives := by
  unfold runningTick
  dsimp only
  rw [renderPhase_knives]
  refine interactPass_knives_nonneg _ ?_
  refine movePass_knives_nonneg _ _ ?_
  refine movePass_knives_nonneg _ _ ?_
  dsimp only
  rw [spawnKnife_knives, spawnOnion_knives, spawnSidewalk_knives,
      spawnRoadLines_knives, spawnBroccoli_knives, spawnLamb_knives]
  exact h

/-- C9: within a run the score is a monotonically non-decreasing non-negative
integer.  It is reset to 0 exactly by the transition into the running phase;
a running-phase tick never decreases it; ticks in the other phases and the
transitions into game-over and attract leave it unchanged; consequently along
any run — any number of running ticks after the reset — it stays
non-negative. -/
theorem C9_score_monotone_nonneg :
    (∀ w : World, (setGamePhase w Phase.PHASE_RUNNING).gamestate.score = 0) ∧
    (∀ w : World, w.gamestate.score ≤ (runningTick w).gamestate.score) ∧
    (∀ w : World, (gameOverTick w).gamestate.score = w.gamestate.score) ∧
    (∀ w : World, (attractTick w).gamestate.score = w.gamestate.score) ∧
    (∀ w : World,
      (setGamePhase w Phase.PHASE_GAME_OVER).gamestate.score = w.gamestate.score) ∧
    (∀ w : World,
      (setGamePhase w Phase.PHASE_ATTRACT).gamestate.score = w.gamestate.score) ∧
    (∀ (w : World) (n : Nat),
      0 ≤ (runningTick^[n] (setGamePhase w Phase.PHASE_RUNNING)).gamestate.score) := by
  refine ⟨fun w => rfl, runningTick_score_le, gameOverTick_score, attractTick_score,
          setGamePhase_gameover_score, setGamePhase_attract_score, ?_⟩
  intro w n
  induction n with
  | zero => exact le_refl _
  | succ m ih =>
      rw [Function.iterate_succ_apply']
      exact le_trans ih (runningTick_score_le _)

/-- C10: the knife count is never negative.  It starts at the configured
value 3, `spendKnife` refuses to spend when the count is 0 (returning false
and leaving the count unchanged), a running-phase tick preserves
non-negativity (the only decrement is the guarded one in `spendKnife`, the
only other writes are the pickup increment and the reset), ticks and
transitions in the other phases leave the count unchanged, and along any run
the count stays non-negative. -/
theorem C10_knives_nonneg :
    INITIAL_GAMESTATE.knives = 3 ∧
    (∀ w : World, (setGamePhase w Phase.PHASE_RUNNING).gamestate.knives = 3) ∧
    (∀ (w : World) (p : Sprite) (b : Bool), w.gamestate.knives = 0 →
      (spendKnife w p b).1 = false ∧
      (spendKnife w p b).2.2.gamestate.knives = w.gamestate.knives) ∧
    (∀ w : World, 0 ≤ w.gamestate.knives →
      0 ≤ (runningTick w).gamestate.knives) ∧
    (∀ w : World, (gameOverTick w).gamestate.knives = w.gamestate.knives) ∧
    (∀ w : World, (attractTick w).gamestate.knives = w.gamestate.knives) ∧
    (∀ w : World,
      (setGamePhase w Phase.PHASE_GAME_OVER).gamestate.knives = w.gamestate.knives) ∧
    (∀ w : World,
      (setGamePhase w Phase.PHASE_ATTRACT).gamestate.knives = w.gamestate.knives) ∧
    (∀ (w : World) (n : Nat),
      0 ≤ (runningTick^[n] (setGamePhase w Phase.PHASE_RUNNING)).gamestate.knives) := by
  refine ⟨rfl, fun w => rfl, ?_, runningTick_knives_nonneg, gameOverTick_knives,
          attractTick_knives, setGamePhase_gameover_knives,
          setGamePhase_attract_knives, ?_⟩
  · intro w p b h
    unfold spendKnife
    rw [if_pos h]
    exact ⟨rfl, rfl⟩
  · intro w n
    induction n with
    | zero => show (0 : ℤ) ≤ 3; omega
    | succ m ih =>
        rw [Function.iterate_succ_apply']
        exact runningTick_knives_nonneg _ ih

/-- A world with an empty knife inventory. -/
def c10World : World :=
  { emptyWorld with gamestate := { INITIAL_GAMESTATE with knives := 0 } }

/-- Witness for C10: at a concrete world with 0 knives, spending is refused
without a decrement; at the initial world, a running tick keeps the count
non-negative. -/
theorem C10_witness :
    (c10World.gamestate.knives = 0 ∧
     (spendKnife c10World (mkPlayer 0) true).1 = false ∧
     (spendKnife c10World (mkPlayer 0) true).2.2.gamestate.knives
       = c10World.gamestate.knives) ∧
    (0 ≤ emptyWorld.gamestate.knives ∧
     0 ≤ (runningTick emptyWorld).gamestate.knives) :=
  ⟨⟨rfl, (C10_knives_nonneg.2.2.1 c10World (mkPlayer 0) true rfl).1,
    (C10_knives_nonneg.2.2.1 c10World (mkPlayer 0) true rfl).2⟩,
   ⟨by decide, C10_knives_nonneg.2.2.2.1 emptyWorld (by decide)⟩⟩

end Teapot
